import Mathlib

/-!
Verification of the file-type detection library (dist/index.js) against its
specification.  The JavaScript source is shallowly embedded: byte buffers are
lists of natural numbers (byte values 0..255), the BufferTokenizer is a record
of the underlying bytes, a cursor position and the dispatcher's 4100-byte
working buffer, fallible operations return Except, and the recursive walks are
given explicit fuel (always called with more fuel than the walk can consume,
since every iteration advances the cursor).  JavaScript strings that the
dispatcher only ever compares against ASCII constants are modelled as their
byte sequences; where full Unicode semantics can change an outcome that a
claim depends on (the TAR checksum field), the bytes are decoded to code
points with a faithful UTF-8 decoder first.
-/

set_option maxHeartbeats 4000000
set_option maxRecDepth 4000

namespace FType

/-- Detection result: an extension / MIME pair as returned by the dispatcher. -/
structure FileType where
  ext : String
  mime : String
deriving DecidableEq

/-- Errors that can escape the embedded code: the tokenizer's EndOfStreamError,
the RangeError thrown by Buffer.readUIntBE on a bad byte length, and the
TypeError raised when fileTypeFromFile invokes its undefined opener. -/
inductive JsErr where
  | endOfStream
  | rangeError
  | typeError
deriving DecidableEq

/-- Result of running the dispatcher: an error, or an optional detection result. -/
abbrev PR := Except JsErr (Option FileType)

/-! ## Byte access helpers

List.getD and the bracket access of Lean 4.14 compute the list length first,
which makes kernel reduction on the 4100-byte working buffer impractically
deep; these structural accessors have identical values (byteAt_eq below). -/

/-- Structural indexing (JS buffer[i]; none models undefined). -/
def byteAt : List Nat → Nat → Option Nat
  | [], _ => none
  | c :: _, 0 => some c
  | _ :: t, n+1 => byteAt t n

/-- Structural indexing with a default (the bitwise coercion of undefined). -/
def byteAtD (l : List Nat) (i : Nat) (d : Nat) : Nat :=
  match byteAt l i with
  | some c => c
  | none => d

/-- The minimumBytes constant: the allocated working-buffer size; the source
reads this.buffer.length, which is always this value. -/
def minimumBytes : Nat := 4100

/-! ## Numeric token codecs (Buffer / DataView reads) -/

/-- Buffer.readUInt32LE. -/
def readUInt32LE (b : List Nat) (off : Nat) : Nat :=
  byteAtD b off 0 + 256 * byteAtD b (off+1) 0 + 65536 * byteAtD b (off+2) 0
    + 16777216 * byteAtD b (off+3) 0

/-- Buffer.readUInt16LE. -/
def readUInt16LE (b : List Nat) (off : Nat) : Nat :=
  byteAtD b off 0 + 256 * byteAtD b (off+1) 0

/-- DataView.getUint16 big endian (UINT16_BE.get). -/
def readUInt16BE (b : List Nat) (off : Nat) : Nat :=
  256 * byteAtD b off 0 + byteAtD b (off+1) 0

/-- DataView.getUint32 big endian (UINT32_BE.get). -/
def readUInt32BE (b : List Nat) (off : Nat) : Nat :=
  16777216 * byteAtD b off 0 + 65536 * byteAtD b (off+1) 0 + 256 * byteAtD b (off+2) 0
    + byteAtD b (off+3) 0

/-- DataView.getInt32 big endian (INT32_BE.get): signed 32-bit value. -/
def readInt32BE (b : List Nat) (off : Nat) : Int :=
  let n := readUInt32BE b off
  if n < 2147483648 then (n : Int) else (n : Int) - 4294967296

/-- Buffer.readUIntBE(offset, byteLength): validates 1 <= byteLength <= 6 and the
bounds, throwing a RangeError otherwise. -/
def readUIntBE (b : List Nat) (off len : Nat) : Except JsErr Nat :=
  if len = 0 ∨ 6 < len ∨ b.length < off + len then .error .rangeError
  else .ok (((b.drop off).take len).foldl (fun acc x => 256 * acc + x) 0)

/-- UINT64_LE.get followed by the Number() conversion (modelled exactly as an
integer; the JS conversion of the BigInt to a double rounds above 2^53, which no
claim depends on). -/
def readUInt64LE (b : List Nat) (off : Nat) : Nat :=
  (List.range 8).foldl (fun acc i => acc + byteAtD b (off+i) 0 * 256 ^ i) 0

/-- uint32SyncSafeToken.get from the source: note that only the byte at
offset + 3 is masked with 0x7F; the other three bytes are shifted in unmasked.
Out-of-range accesses give undefined, which the bitwise operators coerce to 0. -/
def uint32SyncSafeGet (b : List Nat) (off : Nat) : Nat :=
  ((byteAtD b (off+3) 0) &&& 0x7F) ||| (((byteAtD b (off+2) 0) <<< 7) |||
    (((byteAtD b (off+1) 0) <<< 14) ||| ((byteAtD b off 0) <<< 21)))

/-! ## The probe primitive _check -/

/-- Index-by-index loop of _check.  Without a mask, a position outside the
buffer list makes the comparison fail (JS compares the numeric header byte with
undefined).  With a mask, JS coerces an out-of-range mask or buffer byte to 0
via ToInt32 before the bitwise and, so only the resulting value is compared. -/
def _checkAux (buffer : List Nat) (offset : Nat) (mask : Option (List Nat)) :
    List Nat → Nat → Bool
  | [], _ => true
  | h :: hs, i =>
    (match mask with
     | some m => h == ((byteAtD m i 0) &&& (byteAtD buffer (i + offset) 0))
     | none =>
       match byteAt buffer (i + offset) with
       | some b => h == b
       | none => false)
    && _checkAux buffer offset mask hs (i+1)

/-- The probe primitive _check(buffer, headers, {offset, mask}). -/
def _check (buffer headers : List Nat) (offset : Nat) (mask : Option (List Nat)) :
    Bool :=
  _checkAux buffer offset mask headers 0

/-! ## Tokenizer state (BufferTokenizer) and its operations -/

/-- State of a BufferTokenizer together with the dispatcher's working buffer:
the underlying bytes, the current position, and the sample buffer (allocated to
4100 zero bytes at the top of parse). -/
structure St where
  data : List Nat
  pos : Nat
  buf : List Nat
deriving DecidableEq

/-- Known size of a buffer-backed tokenizer (fileInfo.size). -/
def size (st : St) : Nat := st.data.length

/-- Bytes remaining from the current position. -/
def rem (st : St) : Nat := size st - st.pos

/-- BufferTokenizer.peekBuffer: copies min(size - position, length) bytes
starting at the current position. -/
def peekBytes (st : St) (len : Nat) : List Nat :=
  (st.data.drop st.pos).take (min (rem st) len)

/-- Peek with mayBeLess = false: EndOfStream when fewer bytes are available. -/
def peekExact (st : St) (len : Nat) : Except JsErr (List Nat) :=
  if min (rem st) len < len then .error .endOfStream else .ok (peekBytes st len)

/-- readBuffer / readToken with mayBeLess = false: reads exactly len bytes and
advances the position, or raises EndOfStream. -/
def readExact (st : St) (len : Nat) : Except JsErr (List Nat × St) :=
  match peekExact st len with
  | .error e => .error e
  | .ok bs => .ok (bs, ⟨st.data, st.pos + len, st.buf⟩)

/-- readBuffer with mayBeLess = true: reads what is available. -/
def readMay (st : St) (len : Nat) : List Nat × St :=
  let bs := peekBytes st len
  (bs, ⟨st.data, st.pos + bs.length, st.buf⟩)

/-- AbstractTokenizer.ignore: advances the cursor, clamping at the known size. -/
def ignoreN (st : St) (len : Nat) : St :=
  if size st - st.pos < len then ⟨st.data, size st, st.buf⟩
  else ⟨st.data, st.pos + len, st.buf⟩

/-- AbstractTokenizer.ignore with a JavaScript (possibly negative) length: the
ASF walk can pass a negative payload, which moves the position backwards. -/
def ignoreI (st : St) (len : Int) : St :=
  if (size st : Int) - (st.pos : Int) < len then ⟨st.data, size st, st.buf⟩
  else ⟨st.data, ((st.pos : Int) + len).toNat, st.buf⟩

/-- Uint8Array.set at offset 0: overwrite a prefix of the buffer, keeping the
tail (the dispatcher re-peeks into the same resident buffer). -/
def writeBytes (old new : List Nat) : List Nat := new ++ old.drop new.length

/-- Peek len bytes (mayBeLess) into the working buffer. -/
def setWindow (st : St) (len : Nat) : St :=
  ⟨st.data, st.pos, writeBytes st.buf (peekBytes st len)⟩

/-- FileTypeParser.check on the working buffer. -/
def chk (st : St) (hdr : List Nat) (off : Nat) : Bool :=
  _check st.buf hdr off none

/-- FileTypeParser.check with a mask. -/
def chkm (st : St) (hdr : List Nat) (off : Nat) (m : List Nat) : Bool :=
  _check st.buf hdr off (some m)

/-! ## JavaScript string helpers over byte / code-point lists -/

/-- stringToBytes: code units of an ASCII string (all constants compared by the
dispatcher are ASCII, so these are exactly the byte values). -/
def stringToBytes (s : String) : List Nat := s.toList.map Char.toNat

/-- Whitespace for String.trim and parseInt (ECMAScript WhiteSpace together
with LineTerminator). -/
def isJsWs (c : Nat) : Bool :=
  c = 0x9 || c = 0xA || c = 0xB || c = 0xC || c = 0xD || c = 0x20 || c = 0xA0 ||
  c = 0x1680 || (0x2000 ≤ c && c ≤ 0x200A) || c = 0x2028 || c = 0x2029 ||
  c = 0x202F || c = 0x205F || c = 0x3000 || c = 0xFEFF

/-- String.prototype.trim. -/
def jsTrim (l : List Nat) : List Nat :=
  ((l.dropWhile isJsWs).reverse.dropWhile isJsWs).reverse

/-- Line terminators, which the regular-expression dot does not match. -/
def isLineTerm (c : Nat) : Bool :=
  c = 0xA || c = 0xD || c = 0x2028 || c = 0x2029

/-- JS replace of the pattern NUL-dot-star-dollar with the empty string (no
multiline flag, so the dollar only matches at the very end): cut the string at
the leftmost NUL from which a run of non-line-terminators reaches the end. -/
def replaceNulToEnd : List Nat → List Nat
  | [] => []
  | c :: rest =>
    if c = 0 && rest.all (fun x => !isLineTerm x) then []
    else c :: replaceNulToEnd rest

/-- Octal digit. -/
def isOct (c : Nat) : Bool := 0x30 ≤ c && c ≤ 0x37

/-- Value of a list of octal digit code points. -/
def octDigitsVal (l : List Nat) : Nat := l.foldl (fun a c => 8 * a + (c - 0x30)) 0

/-- JS parseInt with radix 8: strip leading whitespace, take an optional sign,
then the maximal run of octal digits; NaN (none) when that run is empty. -/
def jsParseInt8 (l : List Nat) : Option Int :=
  let l1 := l.dropWhile isJsWs
  match l1 with
  | [] => none
  | c :: rest =>
    if c = 0x2B then
      let ds := rest.takeWhile isOct
      if ds = [] then none else some ((octDigitsVal ds : Int))
    else if c = 0x2D then
      let ds := rest.takeWhile isOct
      if ds = [] then none else some (-(octDigitsVal ds : Int))
    else
      let ds := l1.takeWhile isOct
      if ds = [] then none else some ((octDigitsVal ds : Int))

/-! ## UTF-8 decoding (Buffer.toString with utf8 encoding, node-style) -/

/-- Continuation byte. -/
def isCont (c : Nat) : Bool := 0x80 ≤ c && c ≤ 0xBF

/-- Valid first continuation for a 3-byte lead (rejecting overlong forms and
surrogates). -/
def cont3ok (b c : Nat) : Bool :=
  if b = 0xE0 then 0xA0 ≤ c && c ≤ 0xBF
  else if b = 0xED then 0x80 ≤ c && c ≤ 0x9F
  else isCont c

/-- Valid first continuation for a 4-byte lead (rejecting overlong forms and
code points above U+10FFFF). -/
def cont4ok (b c : Nat) : Bool :=
  if b = 0xF0 then 0x90 ≤ c && c ≤ 0xBF
  else if b = 0xF4 then 0x80 ≤ c && c ≤ 0x8F
  else isCont c

/-- Decode one scalar from a lead byte and the remaining input, returning the
code point and how many extra bytes were consumed (invalid input yields the
replacement character U+FFFD over the maximal valid subpart, as node does). -/
def utf8Step (b : Nat) (rest : List Nat) : Nat × Nat :=
  if b < 0x80 then (b, 0)
  else if 0xC2 ≤ b && b ≤ 0xDF then
    match rest with
    | c1 :: _ => if isCont c1 then ((b - 0xC0) * 64 + (c1 - 0x80), 1) else (0xFFFD, 0)
    | [] => (0xFFFD, 0)
  else if 0xE0 ≤ b && b ≤ 0xEF then
    match rest with
    | c1 :: c2 :: _ =>
      if cont3ok b c1 && isCont c2 then
        ((b - 0xE0) * 4096 + (c1 - 0x80) * 64 + (c2 - 0x80), 2)
      else if cont3ok b c1 then (0xFFFD, 1)
      else (0xFFFD, 0)
    | [c1] => if cont3ok b c1 then (0xFFFD, 1) else (0xFFFD, 0)
    | [] => (0xFFFD, 0)
  else if 0xF0 ≤ b && b ≤ 0xF4 then
    match rest with
    | c1 :: c2 :: c3 :: _ =>
      if cont4ok b c1 && isCont c2 && isCont c3 then
        ((b - 0xF0) * 262144 + (c1 - 0x80) * 4096 + (c2 - 0x80) * 64 + (c3 - 0x80), 3)
      else if cont4ok b c1 && isCont c2 then (0xFFFD, 2)
      else if cont4ok b c1 then (0xFFFD, 1)
      else (0xFFFD, 0)
    | [c1, c2] =>
      if cont4ok b c1 && isCont c2 then (0xFFFD, 2)
      else if cont4ok b c1 then (0xFFFD, 1)
      else (0xFFFD, 0)
    | [c1] => if cont4ok b c1 then (0xFFFD, 1) else (0xFFFD, 0)
    | [] => (0xFFFD, 0)
  else (0xFFFD, 0)

/-- Fuelled decoding loop (the fuel is the input length, which bounds the
number of decoded scalars). -/
def utf8DecodeGo : Nat → List Nat → List Nat
  | 0, _ => []
  | _, [] => []
  | fuel+1, b :: rest =>
    let step := utf8Step b rest
    step.1 :: utf8DecodeGo fuel (rest.drop step.2)

/-- Buffer.toString with utf8 encoding, as a list of code points. -/
def utf8Decode (l : List Nat) : List Nat := utf8DecodeGo l.length l

/-! ## TAR header checksum -/

/-- The parsed checksum field of tarHeaderChecksumMatches: decode bytes
148..153 as UTF-8, apply the NUL-truncating replace, trim, and parseInt with
radix 8 (none models NaN). -/
def tarReadSum (buffer : List Nat) : Option Int :=
  jsParseInt8 (jsTrim (replaceNulToEnd (utf8Decode ((buffer.drop 148).take 6))))

/-- The signed-bit-biased byte sum of tarHeaderChecksumMatches: 8 * 0x20 plus
the bytes at offset..offset+147 and offset+156..offset+511. -/
def tarSum (buffer : List Nat) (offset : Nat) : Nat :=
  8 * 0x20
    + (List.range 148).foldl (fun a i => a + byteAtD buffer (offset + i) 0) 0
    + (List.range 356).foldl (fun a i => a + byteAtD buffer (offset + 156 + i) 0) 0

/-- tarHeaderChecksumMatches from the source (the call site always passes a
4100-byte buffer, so all summed indices are in range). -/
def tarHeaderChecksumMatches (buffer : List Nat) (offset : Nat) : Bool :=
  match tarReadSum buffer with
  | none => false
  | some readSum => readSum == ((tarSum buffer offset : Int))

/-! ## Substring search (Buffer.includes / Buffer.indexOf) -/

/-- Does the pattern occur at index i (entirely within the haystack)? -/
def matchAt (hay pat : List Nat) (i : Nat) : Bool :=
  decide (((hay.drop i).take pat.length) = pat)

/-- Buffer.includes. -/
def jsIncludes (hay pat : List Nat) : Bool :=
  (List.range (hay.length + 1)).any (matchAt hay pat)

/-- The ZIP local-file-header signature 50 4B 03 04 (the hex string given to
Buffer.indexOf). -/
def zipSig : List Nat := [0x50, 0x4B, 0x03, 0x04]

/-- Buffer.indexOf of the ZIP signature: index of the first occurrence. -/
def bufIndexOfZip (buf : List Nat) : Option Nat :=
  (List.range (buf.length + 1)).findSome?
    (fun i => if matchAt buf zipSig i then some i else none)

/-! ## JSON (the ASAR probe runs JSON.parse on a slice of the sample) -/

/-- JSON values; numbers only record whether they are zero, which is all that
the truthiness test on the files property can observe. -/
inductive JVal where
  | jnull
  | jbool (b : Bool)
  | jnum (isZero : Bool)
  | jstr (cs : List Nat)
  | jarr (n : Nat)
  | jobj (fields : List (List Nat × JVal))

/-- JSON whitespace. -/
def jsonWs (c : Nat) : Bool := c = 0x20 || c = 0x9 || c = 0xA || c = 0xD

/-- Hexadecimal digit value. -/
def hexVal (c : Nat) : Option Nat :=
  if 0x30 ≤ c && c ≤ 0x39 then some (c - 0x30)
  else if 0x41 ≤ c && c ≤ 0x46 then some (c - 0x41 + 10)
  else if 0x61 ≤ c && c ≤ 0x66 then some (c - 0x61 + 10)
  else none

/-- Parse the body of a JSON string after the opening quote. -/
def jsonStr : Nat → List Nat → Option (List Nat × List Nat)
  | 0, _ => none
  | _, [] => none
  | fuel+1, c :: rest =>
    if c = 0x22 then some ([], rest)
    else if c = 0x5C then
      match rest with
      | [] => none
      | e :: rest2 =>
        let simple : Option Nat :=
          if e = 0x22 then some 0x22 else if e = 0x5C then some 0x5C
          else if e = 0x2F then some 0x2F else if e = 0x62 then some 0x8
          else if e = 0x66 then some 0xC else if e = 0x6E then some 0xA
          else if e = 0x72 then some 0xD else if e = 0x74 then some 0x9
          else none
        match simple with
        | some ch =>
          match jsonStr fuel rest2 with
          | some (cs, r) => some (ch :: cs, r)
          | none => none
        | none =>
          if e = 0x75 then
            match rest2 with
            | h1 :: h2 :: h3 :: h4 :: rest3 =>
              match hexVal h1, hexVal h2, hexVal h3, hexVal h4 with
              | some v1, some v2, some v3, some v4 =>
                match jsonStr fuel rest3 with
                | some (cs, r) => some ((4096*v1 + 256*v2 + 16*v3 + v4) :: cs, r)
                | none => none
              | _, _, _, _ => none
            | _ => none
          else none
    else if c < 0x20 then none
    else
      match jsonStr fuel rest with
      | some (cs, r) => some (c :: cs, r)
      | none => none

/-- Digit. -/
def isDigit (c : Nat) : Bool := 0x30 ≤ c && c ≤ 0x39

/-- Parse a JSON number, returning whether it is zero and the rest. -/
def jsonNum (l : List Nat) : Option (Bool × List Nat) :=
  let core : List Nat → Option (Bool × List Nat) := fun l1 =>
    match l1 with
    | [] => none
    | c :: rest =>
      if c = 0x30 then some (true, rest)
      else if isDigit c then some (false, rest.dropWhile isDigit)
      else none
  let afterSign := fun (l1 : List Nat) =>
    match core l1 with
    | none => none
    | some (z0, r1) =>
      let fracRes : Option (Bool × List Nat) :=
        match r1 with
        | 0x2E :: r2 =>
          let ds := r2.takeWhile isDigit
          if ds = [] then none
          else some (ds.all (fun d => d = 0x30), r2.dropWhile isDigit)
        | _ => some (true, r1)
      match fracRes with
      | none => none
      | some (zf, r2) =>
        match r2 with
        | e :: r3 =>
          if e = 0x45 || e = 0x65 then
            let r4 := match r3 with
              | s :: r3a => if s = 0x2B || s = 0x2D then r3a else r3
              | [] => r3
            let ds := r4.takeWhile isDigit
            if ds = [] then none else some (z0 && zf, r4.dropWhile isDigit)
          else some (z0 && zf, r2)
        | [] => some (z0 && zf, r2)
  match l with
  | 0x2D :: rest => afterSign rest
  | _ => afterSign l

mutual

/-- Parse a JSON value (fuelled; the fuel bounds the combined nesting depth and
member count, both of which the input length bounds). -/
def jsonVal : Nat → List Nat → Option (JVal × List Nat)
  | 0, _ => none
  | fuel+1, l =>
    match l.dropWhile jsonWs with
    | [] => none
    | c :: rest =>
      if c = 0x22 then
        match jsonStr (fuel+1) rest with
        | some (cs, r) => some (.jstr cs, r)
        | none => none
      else if c = 0x7B then
        match rest.dropWhile jsonWs with
        | 0x7D :: r => some (.jobj [], r)
        | l2 => jsonPair fuel l2 []
      else if c = 0x5B then
        match rest.dropWhile jsonWs with
        | 0x5D :: r => some (.jarr 0, r)
        | l2 => jsonElem fuel l2 0
      else if c = 0x74 then
        match rest with
        | 0x72 :: 0x75 :: 0x65 :: r => some (.jbool true, r)
        | _ => none
      else if c = 0x66 then
        match rest with
        | 0x61 :: 0x6C :: 0x73 :: 0x65 :: r => some (.jbool false, r)
        | _ => none
      else if c = 0x6E then
        match rest with
        | 0x75 :: 0x6C :: 0x6C :: r => some (.jnull, r)
        | _ => none
      else
        match jsonNum (c :: rest) with
        | some (z, r) => some (.jnum z, r)
        | none => none

/-- Parse one key-value member of an object (the input starts at the key). -/
def jsonPair : Nat → List Nat → List (List Nat × JVal) → Option (JVal × List Nat)
  | 0, _, _ => none
  | fuel+1, l, acc =>
    match l with
    | 0x22 :: r =>
      match jsonStr (fuel+1) r with
      | some (key, r1) =>
        match r1.dropWhile jsonWs with
        | 0x3A :: r2 =>
          match jsonVal fuel r2 with
          | some (v, r3) => jsonMembers fuel (r3.dropWhile jsonWs) ((key, v) :: acc)
          | none => none
        | _ => none
      | none => none
    | _ => none

/-- After a member: expect a closing brace or a comma and another member. -/
def jsonMembers : Nat → List Nat → List (List Nat × JVal) → Option (JVal × List Nat)
  | 0, _, _ => none
  | fuel+1, l, acc =>
    match l with
    | 0x7D :: r => some (.jobj acc.reverse, r)
    | 0x2C :: r => jsonPair fuel (r.dropWhile jsonWs) acc
    | _ => none

/-- Parse one element of an array. -/
def jsonElem : Nat → List Nat → Nat → Option (JVal × List Nat)
  | 0, _, _ => none
  | fuel+1, l, n =>
    match jsonVal fuel l with
    | some (_, r) => jsonElems fuel (r.dropWhile jsonWs) (n+1)
    | none => none

/-- After an element: expect a closing bracket or a comma and another element. -/
def jsonElems : Nat → List Nat → Nat → Option (JVal × List Nat)
  | 0, _, _ => none
  | fuel+1, l, n =>
    match l with
    | 0x5D :: r => some (.jarr n, r)
    | 0x2C :: r => jsonElem fuel (r.dropWhile jsonWs) n
    | _ => none

end

/-- JavaScript truthiness of a parsed JSON value (the if on json.files). -/
def jsonTruthy : JVal → Bool
  | .jnull => false
  | .jbool b => b
  | .jnum isZero => !isZero
  | .jstr cs => !(cs.isEmpty)
  | .jarr _ => true
  | .jobj _ => true

/-- Property lookup after JSON.parse: the last duplicate key wins. -/
def lookupLastKey (fields : List (List Nat × JVal)) (key : List Nat) : Option JVal :=
  ((fields.filter (fun p => p.1 == key)).getLast?).map (fun p => p.2)

/-- The ASAR check: JSON.parse the decoded slice (parse failures are swallowed)
and test the truthiness of the files property. -/
def asarHasFiles (bytes : List Nat) : Bool :=
  let cps := utf8Decode bytes
  match jsonVal (4 * cps.length + 4) cps with
  | some (v, r) =>
    if (r.dropWhile jsonWs).isEmpty then
      match v with
      | .jobj fields =>
        match lookupLastKey fields (stringToBytes "files") with
        | some fv => jsonTruthy fv
        | none => false
      | _ => false
    else false
  | none => false

/-! ## Container walks of the dispatcher -/

/-- List suffix test (String.prototype.endsWith on the byte level; the compared
suffixes are ASCII, on which UTF-8 decoding is the identity and injective). -/
def endsWithB (l suf : List Nat) : Bool := suf.isSuffixOf l

/-- List prefix test (String.prototype.startsWith, same remark). -/
def startsWithB (l pre0 : List Nat) : Bool := pre0.isPrefixOf l

/-- filename.split on the slash character, first component. -/
def firstComponent (l : List Nat) : List Nat := l.takeWhile (fun c => c ≠ 0x2F)

/-- Inner resynchronisation loop of the ZIP walk: while no next signature was
found and position < size, peek a window into the sample buffer, search for the
next local-file-header signature, and skip to it or past the window. -/
def zipResync : Nat → St → St
  | 0, st => st
  | fuel+1, st =>
    if st.pos < size st then
      let st1 := setWindow st minimumBytes
      match bufIndexOfZip st1.buf with
      | some idx => ignoreN st1 idx
      | none => zipResync fuel (ignoreN st1 minimumBytes)
    else st

/-- Main loop of the ZIP walk: read each 30-byte local file header, the
filename and the extra field, recognise OOXML / ODF / XPI / 3MF entries by
name, and skip the compressed payload (resynchronising when its size is 0). -/
def zipLoop : Nat → St → PR
  | 0, _ => .ok (some ⟨"zip", "application/zip"⟩)
  | fuel+1, st =>
    if st.pos + 30 < size st then
      match readExact st 30 with
      | .error e => .error e
      | .ok (bs, st1) =>
        let st2 : St := ⟨st1.data, st1.pos, writeBytes st1.buf bs⟩
        let compressedSize := readUInt32LE st2.buf 18
        let uncompressedSize := readUInt32LE st2.buf 22
        let filenameLength := readUInt16LE st2.buf 26
        let extraFieldLength := readUInt16LE st2.buf 28
        match readExact st2 filenameLength with
        | .error e => .error e
        | .ok (filename, st3) =>
          let st4 := ignoreN st3 extraFieldLength
          if filename = stringToBytes "META-INF/mozilla.rsa" then
            .ok (some ⟨"xpi", "application/x-xpinstall"⟩)
          else
            let relsCase : Option FileType :=
              if endsWithB filename (stringToBytes ".rels")
                  || endsWithB filename (stringToBytes ".xml") then
                let t := firstComponent filename
                if t = stringToBytes "word" then
                  some ⟨"docx",
                    "application/vnd.openxmlformats-officedocument.wordprocessingml.document"⟩
                else if t = stringToBytes "ppt" then
                  some ⟨"pptx",
                    "application/vnd.openxmlformats-officedocument.presentationml.presentation"⟩
                else if t = stringToBytes "xl" then
                  some ⟨"xlsx",
                    "application/vnd.openxmlformats-officedocument.spreadsheetml.sheet"⟩
                else none
              else none
            match relsCase with
            | some r => .ok (some r)
            | none =>
              if startsWithB filename (stringToBytes "xl/") then
                .ok (some ⟨"xlsx",
                  "application/vnd.openxmlformats-officedocument.spreadsheetml.sheet"⟩)
              else if startsWithB filename (stringToBytes "3D/")
                  && endsWithB filename (stringToBytes ".model") then
                .ok (some ⟨"3mf", "model/3mf"⟩)
              else if filename = stringToBytes "mimetype"
                  && compressedSize = uncompressedSize then
                match readExact st4 compressedSize with
                | .error e => .error e
                | .ok (mt, st5) =>
                  let m := jsTrim mt
                  if m = stringToBytes "application/epub+zip" then
                    .ok (some ⟨"epub", "application/epub+zip"⟩)
                  else if m = stringToBytes "application/vnd.oasis.opendocument.text" then
                    .ok (some ⟨"odt", "application/vnd.oasis.opendocument.text"⟩)
                  else if m = stringToBytes "application/vnd.oasis.opendocument.spreadsheet" then
                    .ok (some ⟨"ods", "application/vnd.oasis.opendocument.spreadsheet"⟩)
                  else if m = stringToBytes "application/vnd.oasis.opendocument.presentation" then
                    .ok (some ⟨"odp", "application/vnd.oasis.opendocument.presentation"⟩)
                  else if compressedSize = 0 then
                    zipLoop fuel (zipResync (rem st5 + 1) st5)
                  else zipLoop fuel (ignoreN st5 compressedSize)
              else if compressedSize = 0 then
                zipLoop fuel (zipResync (rem st4 + 1) st4)
              else zipLoop fuel (ignoreN st4 compressedSize)
    else .ok (some ⟨"zip", "application/zip"⟩)

/-- The ZIP branch: the whole walk is wrapped in a try/catch that converts
EndOfStream into the plain zip result. -/
def zipBranch (st : St) : PR :=
  match zipLoop (rem st + 1) st with
  | .error .endOfStream => .ok (some ⟨"zip", "application/zip"⟩)
  | r => r

/-- The Ogg branch: skip the 28-byte page header, read 8 bytes of payload and
match the codec magic. -/
def oggProbe (st : St) : PR :=
  let st1 := ignoreN st 28
  match readExact st1 8 with
  | .error e => .error e
  | .ok (t, _) =>
    if _check t [0x4F, 0x70, 0x75, 0x73, 0x48, 0x65, 0x61, 0x64] 0 none then
      .ok (some ⟨"opus", "audio/opus"⟩)
    else if _check t [0x80, 0x74, 0x68, 0x65, 0x6F, 0x72, 0x61] 0 none then
      .ok (some ⟨"ogv", "video/ogg"⟩)
    else if _check t [0x01, 0x76, 0x69, 0x64, 0x65, 0x6F, 0x00] 0 none then
      .ok (some ⟨"ogm", "video/ogg"⟩)
    else if _check t [0x7F, 0x46, 0x4C, 0x41, 0x43] 0 none then
      .ok (some ⟨"oga", "audio/ogg"⟩)
    else if _check t [0x53, 0x70, 0x65, 0x65, 0x78, 0x20, 0x20] 0 none then
      .ok (some ⟨"spx", "audio/ogg"⟩)
    else if _check t [0x01, 0x76, 0x6F, 0x72, 0x62, 0x69, 0x73] 0 none then
      .ok (some ⟨"ogg", "audio/ogg"⟩)
    else .ok (some ⟨"ogx", "application/ogg"⟩)

/-- Buffer.toString with binary encoding then the single replace of a NUL by a
space: only the first NUL is replaced. -/
def replaceFirstNulWithSpace : List Nat → List Nat
  | [] => []
  | c :: rest => if c = 0 then 0x20 :: rest else c :: replaceFirstNulWithSpace rest

/-- The ftyp brand switch on the trimmed brand-major bytes. -/
def ftypBrand (brandMajor : List Nat) : FileType :=
  if brandMajor = stringToBytes "avif" || brandMajor = stringToBytes "avis" then
    ⟨"avif", "image/avif"⟩
  else if brandMajor = stringToBytes "mif1" then ⟨"heic", "image/heif"⟩
  else if brandMajor = stringToBytes "msf1" then ⟨"heic", "image/heif-sequence"⟩
  else if brandMajor = stringToBytes "heic" || brandMajor = stringToBytes "heix" then
    ⟨"heic", "image/heic"⟩
  else if brandMajor = stringToBytes "hevc" || brandMajor = stringToBytes "hevx" then
    ⟨"heic", "image/heic-sequence"⟩
  else if brandMajor = stringToBytes "qt" then ⟨"mov", "video/quicktime"⟩
  else if brandMajor = stringToBytes "M4V" || brandMajor = stringToBytes "M4VH"
      || brandMajor = stringToBytes "M4VP" then ⟨"m4v", "video/x-m4v"⟩
  else if brandMajor = stringToBytes "M4P" then ⟨"m4p", "video/mp4"⟩
  else if brandMajor = stringToBytes "M4B" then ⟨"m4b", "audio/mp4"⟩
  else if brandMajor = stringToBytes "M4A" then ⟨"m4a", "audio/x-m4a"⟩
  else if brandMajor = stringToBytes "F4V" then ⟨"f4v", "video/mp4"⟩
  else if brandMajor = stringToBytes "F4P" then ⟨"f4p", "video/mp4"⟩
  else if brandMajor = stringToBytes "F4A" then ⟨"f4a", "audio/mp4"⟩
  else if brandMajor = stringToBytes "F4B" then ⟨"f4b", "audio/mp4"⟩
  else if brandMajor = stringToBytes "crx" then ⟨"cr3", "image/x-canon-cr3"⟩
  else if startsWithB brandMajor (stringToBytes "3g") then
    if startsWithB brandMajor (stringToBytes "3g2") then ⟨"3g2", "video/3gpp2"⟩
    else ⟨"3gp", "video/3gpp"⟩
  else ⟨"mp4", "video/mp4"⟩

/-- The ftyp branch (pure on the sample buffer): extract bytes 8..11, replace
the first NUL by a space, trim, and switch on the brand. -/
def ftypResult (buf : List Nat) : FileType :=
  ftypBrand (jsTrim (replaceFirstNulWithSpace ((buf.drop 8).take 4)))

/-- Number of leading zero bits of an EBML width byte (the mask loop; a zero
byte gives 8). -/
def lzc8 (msb : Nat) : Nat :=
  if msb &&& 0x80 ≠ 0 then 0
  else if msb &&& 0x40 ≠ 0 then 1
  else if msb &&& 0x20 ≠ 0 then 2
  else if msb &&& 0x10 ≠ 0 then 3
  else if msb &&& 0x8 ≠ 0 then 4
  else if msb &&& 0x4 ≠ 0 then 5
  else if msb &&& 0x2 ≠ 0 then 6
  else if msb &&& 0x1 ≠ 0 then 7
  else 8

/-- EBML readField: peek the width byte, then read the whole field. -/
def ebmlReadField (st : St) : Except JsErr (List Nat × St) :=
  match peekExact st 1 with
  | .error e => .error e
  | .ok pb => readExact st (lzc8 (byteAtD pb 0 0) + 1)

/-- EBML readElement: an id field and a length field whose marker bit is
cleared; both are decoded with readUIntBE (which throws a RangeError for
fields longer than 6 bytes). -/
def ebmlReadElement (st : St) : Except JsErr ((Nat × Nat) × St) :=
  match ebmlReadField st with
  | .error e => .error e
  | .ok (idB, st1) =>
    match ebmlReadField st1 with
    | .error e => .error e
    | .ok (lenB, st2) =>
      let lenB2 : List Nat :=
        match lenB with
        | [] => []
        | h :: t => (h ^^^ (0x80 >>> (lenB.length - 1))) :: t
      let nrLength := min 6 lenB2.length
      match readUIntBE idB 0 idB.length with
      | .error e => .error e
      | .ok idv =>
        match readUIntBE lenB2 (lenB2.length - nrLength) nrLength with
        | .error e => .error e
        | .ok lenv => .ok ((idv, lenv), st2)

/-- EBML readChildren: scan up to the given number of children for the DocType
element 0x4282 and return its NUL-truncated payload. -/
def ebmlReadChildren : Nat → Nat → St → Except JsErr (Option (List Nat) × St)
  | 0, _, st => .ok (none, st)
  | _+1, 0, st => .ok (none, st)
  | fuel+1, children, st =>
    match ebmlReadElement st with
    | .error e => .error e
    | .ok ((idv, lenv), st1) =>
      if idv = 0x4282 then
        match readExact st1 lenv with
        | .error e => .error e
        | .ok (raw, st2) => .ok (some (replaceNulToEnd raw), st2)
      else ebmlReadChildren fuel (children - 1) (ignoreN st1 lenv)

/-- The EBML / Matroska branch. -/
def ebmlBranch (st : St) : PR :=
  match ebmlReadElement st with
  | .error e => .error e
  | .ok ((_, relen), st1) =>
    match ebmlReadChildren (rem st1 + 1) relen st1 with
    | .error e => .error e
    | .ok (docType, _) =>
      match docType with
      | some d =>
        if d = stringToBytes "webm" then .ok (some ⟨"webm", "video/webm"⟩)
        else if d = stringToBytes "matroska" then .ok (some ⟨"mkv", "video/x-matroska"⟩)
        else .ok none
      | none => .ok none

/-- The PNG / APNG chunk walk after the 8-byte signature has been skipped. -/
def pngWalk : Nat → St → PR
  | 0, _ => .ok (some ⟨"png", "image/png"⟩)
  | fuel+1, st =>
    match readExact st 4 with
    | .error e => .error e
    | .ok (lenB, st1) =>
      let len := readInt32BE lenB 0
      match readExact st1 4 with
      | .error e => .error e
      | .ok (typeB, st2) =>
        if len < 0 then .ok none
        else if typeB = stringToBytes "IDAT" then .ok (some ⟨"png", "image/png"⟩)
        else if typeB = stringToBytes "acTL" then .ok (some ⟨"apng", "image/apng"⟩)
        else
          let st3 := ignoreN st2 (len.toNat + 4)
          if st3.pos + 8 < size st3 then pngWalk fuel st3
          else .ok (some ⟨"png", "image/png"⟩)

/-- The PNG branch: skip the signature then walk the chunks. -/
def pngBranch (st : St) : PR :=
  let st1 := ignoreN st 8
  pngWalk (rem st1 + 1) st1

/-- The ASF object walk after the 30-byte header has been skipped.  A header
size below 24 makes the payload negative, moving the cursor backwards; the JS
loop can then run forever, which the fuel cuts off with the default result. -/
def asfWalk : Nat → St → PR
  | 0, _ => .ok (some ⟨"asf", "application/vnd.ms-asf"⟩)
  | fuel+1, st =>
    if st.pos + 24 < size st then
      match readExact st 16 with
      | .error e => .error e
      | .ok (guid, st1) =>
        match readExact st1 8 with
        | .error e => .error e
        | .ok (szB, st2) =>
          let hsize := readUInt64LE szB 0
          if _check guid [0x91, 0x07, 0xDC, 0xB7, 0xB7, 0xA9, 0xCF, 0x11, 0x8E,
              0xE6, 0x00, 0xC0, 0x0C, 0x20, 0x53, 0x65] 0 none then
            match readExact st2 16 with
            | .error e => .error e
            | .ok (typeId, _) =>
              if _check typeId [0x40, 0x9E, 0x69, 0xF8, 0x4D, 0x5B, 0xCF, 0x11,
                  0xA8, 0xFD, 0x00, 0x80, 0x5F, 0x5C, 0x44, 0x2B] 0 none then
                .ok (some ⟨"asf", "audio/x-ms-asf"⟩)
              else if _check typeId [0xC0, 0xEF, 0x19, 0xBC, 0x4D, 0x5B, 0xCF, 0x11,
                  0xA8, 0xFD, 0x00, 0x80, 0x5F, 0x5C, 0x44, 0x2B] 0 none then
                .ok (some ⟨"asf", "video/x-ms-asf"⟩)
              else .ok (some ⟨"asf", "application/vnd.ms-asf"⟩)
          else asfWalk fuel (ignoreI st2 ((hsize : Int) - 24))
    else .ok (some ⟨"asf", "application/vnd.ms-asf"⟩)

/-- The ASF branch. -/
def asfBranch (st : St) : PR :=
  let st1 := ignoreN st 30
  asfWalk (rem st1 + 1) st1

/-- readTiffTag: read a tag id, skip the 10 remaining tag bytes, and recognise
the ARW and DNG private tags. -/
def readTiffTag (bigEndian : Bool) (st : St) : Except JsErr (Option FileType × St) :=
  match readExact st 2 with
  | .error e => .error e
  | .ok (tb, st1) =>
    let tagId := if bigEndian then readUInt16BE tb 0 else readUInt16LE tb 0
    let st2 := ignoreN st1 10
    if tagId = 50341 then .ok (some ⟨"arw", "image/x-sony-arw"⟩, st2)
    else if tagId = 50706 then .ok (some ⟨"dng", "image/x-adobe-dng"⟩, st2)
    else .ok (none, st2)

/-- readTiffIFD: scan the given number of tags. -/
def readTiffIFD (bigEndian : Bool) : Nat → St → Except JsErr (Option FileType × St)
  | 0, st => .ok (none, st)
  | n+1, st =>
    match readTiffTag bigEndian st with
    | .error e => .error e
    | .ok (some ft, st1) => .ok (some ft, st1)
    | .ok (none, st1) => readTiffIFD bigEndian n st1

/-- readTiffHeader: version 42 gives classic TIFF (with CR2 / NEF quick checks
and an IFD walk for ARW / DNG), version 43 BigTIFF; any other version falls
through to the rest of the cascade (the none result). -/
def readTiffHeader (bigEndian : Bool) (st : St) : Except JsErr (Option FileType) :=
  let version := if bigEndian then readUInt16BE st.buf 2 else readUInt16LE st.buf 2
  let ifdOffset := if bigEndian then readUInt32BE st.buf 4 else readUInt32LE st.buf 4
  if version = 42 then
    if 6 ≤ ifdOffset && chk st (stringToBytes "CR") 8 then
      .ok (some ⟨"cr2", "image/x-canon-cr2"⟩)
    else if 6 ≤ ifdOffset && 8 ≤ ifdOffset
        && (chk st [0x1C, 0x00, 0xFE, 0x00] 8 || chk st [0x1F, 0x00, 0x0B, 0x00] 8) then
      .ok (some ⟨"nef", "image/x-nikon-nef"⟩)
    else
      let st1 := ignoreN st ifdOffset
      match readExact st1 2 with
      | .error e => .error e
      | .ok (nb, st2) =>
        let numberOfTags := if bigEndian then readUInt16BE nb 0 else readUInt16LE nb 0
        match readTiffIFD bigEndian numberOfTags st2 with
        | .error e => .error e
        | .ok (some ft, _) => .ok (some ft)
        | .ok (none, _) => .ok (some ⟨"tif", "image/tiff"⟩)
  else if version = 43 then .ok (some ⟨"tif", "image/tiff"⟩)
  else .ok none

/-- The PDF branch: skip 1350 bytes, read up to min(10 MiB, size) bytes into a
zero-filled buffer of that allocated length, and search for AIPrivateData. -/
def pdfBranch (st : St) : PR :=
  let st1 := ignoreN st 1350
  let bufLen := min 10485760 (size st1)
  let r := readMay st1 bufLen
  if jsIncludes (r.1 ++ List.replicate (bufLen - r.1.length) 0)
      (stringToBytes "AIPrivateData") then
    .ok (some ⟨"ai", "application/postscript"⟩)
  else .ok (some ⟨"pdf", "application/pdf"⟩)

/-- The ar / deb branch (Buffer.toString with ascii encoding masks bit 7). -/
def arBranch (st : St) : PR :=
  let st1 := ignoreN st 8
  match readExact st1 13 with
  | .error e => .error e
  | .ok (s, _) =>
    if s.map (fun b => b % 128) = stringToBytes "debian-binary" then
      .ok (some ⟨"deb", "application/x-deb"⟩)
    else .ok (some ⟨"ar", "application/x-unix-archive"⟩)

/-- The JPEG 2000 family branch. -/
def jp2Branch (st : St) : PR :=
  let st1 := ignoreN st 20
  match readExact st1 4 with
  | .error e => .error e
  | .ok (t, _) =>
    let ts := t.map (fun b => b % 128)
    if ts = stringToBytes "jp2 " then .ok (some ⟨"jp2", "image/jp2"⟩)
    else if ts = stringToBytes "jpx " then .ok (some ⟨"jpx", "image/jpx"⟩)
    else if ts = stringToBytes "jpm " then .ok (some ⟨"jpm", "image/jpm"⟩)
    else if ts = stringToBytes "mjp2" then .ok (some ⟨"mj2", "image/mj2"⟩)
    else .ok none

/-- The EPS / PS branch: re-peek 24 bytes into the sample, then test the
PS-Adobe and EPSF markers. -/
def epsBranch (st : St) : PR :=
  let st1 := setWindow st 24
  if chk st1 (stringToBytes "PS-Adobe-") 2 && chk st1 (stringToBytes " EPSF-") 14 then
    .ok (some ⟨"eps", "application/eps"⟩)
  else .ok (some ⟨"ps", "application/postscript"⟩)

/-- The ASAR check: a Pickle header, a JSON size at offset 12, and a JSON
object with a files key inside the sample buffer (none falls through). -/
def asarCase (st : St) : Option FileType :=
  if chk st [0x04, 0x00, 0x00, 0x00] 0 && 16 ≤ minimumBytes then
    let jsonSize := readUInt32LE st.buf 12
    if 12 < jsonSize && jsonSize + 16 ≤ minimumBytes then
      if asarHasFiles ((st.buf.drop 16).take jsonSize) then
        some ⟨"asar", "application/x-asar"⟩
      else none
    else none
  else none

/-! ## The cascade of guarded probes (FileTypeParser.parse), split into stages.

The stages follow the source order exactly; they are separate definitions only
to keep the later proofs modular.  Stage 9 is the tail of the cascade, stage 1
its head (after the 2- and 3-byte probes handled by the parse wrapper). -/

/-- Tail of the cascade: the 512-byte escalation, TAR, UTF-16 BE BOM, PGP and
the MPEG audio sync probes; falling off the end gives the unknown result. -/
def stage9 (st0 : St) : PR :=
  let st := setWindow st0 (min 512 (size st0))
  if tarHeaderChecksumMatches st.buf 0 then .ok (some ⟨"tar", "application/x-tar"⟩)
  else if chk st [0xFF, 0xFE] 0 then
    (if chk st [60, 0, 63, 0, 120, 0, 109, 0, 108, 0] 2 then
      .ok (some ⟨"xml", "application/xml"⟩)
    else if chk st [0xFF, 0x0E, 0x53, 0x00, 0x6B, 0x00, 0x65, 0x00, 0x74, 0x00,
        0x63, 0x00, 0x68, 0x00, 0x55, 0x00, 0x70, 0x00, 0x20, 0x00, 0x4D, 0x00,
        0x6F, 0x00, 0x64, 0x00, 0x65, 0x00, 0x6C, 0x00] 2 then
      .ok (some ⟨"skp", "application/vnd.sketchup.skp"⟩)
    else .ok none)
  else if chk st (stringToBytes "-----BEGIN PGP MESSAGE-----") 0 then
    .ok (some ⟨"pgp", "application/pgp-encrypted"⟩)
  else if 2 ≤ minimumBytes && chkm st [0xFF, 0xE0] 0 [0xFF, 0xE0] then
    (if chkm st [0x10] 1 [0x16] then
      (if chkm st [0x08] 1 [0x08] then .ok (some ⟨"aac", "audio/aac"⟩)
      else .ok (some ⟨"aac", "audio/aac"⟩))
    else if chkm st [0x02] 1 [0x06] then .ok (some ⟨"mp3", "audio/mpeg"⟩)
    else if chkm st [0x04] 1 [0x06] then .ok (some ⟨"mp2", "audio/mpeg"⟩)
    else if chkm st [0x06] 1 [0x06] then .ok (some ⟨"mp1", "audio/mpeg"⟩)
    else .ok none)
  else .ok none

/-- Continuation of stage 8 after the BEGIN: group (which can fall through). -/
def stage8a (st : St) : PR :=
  if chk st (stringToBytes "FUJIFILMCCD-RAW") 0 then .ok (some ⟨"raf", "image/x-fujifilm-raf"⟩)
  else if chk st (stringToBytes "Extended Module:") 0 then .ok (some ⟨"xm", "audio/x-xm"⟩)
  else if chk st (stringToBytes "Creative Voice File") 0 then .ok (some ⟨"voc", "audio/x-voc"⟩)
  else
    match asarCase st with
    | some r => .ok (some r)
    | none =>
      if chk st [0x06, 0x0E, 0x2B, 0x34, 0x02, 0x05, 0x01, 0x01, 0x0D, 0x01, 0x02,
          0x01, 0x01, 0x02] 0 then
        .ok (some ⟨"mxf", "application/mxf"⟩)
      else if chk st (stringToBytes "SCRM") 44 then .ok (some ⟨"s3m", "audio/x-s3m"⟩)
      else if chk st [0x47] 0 && chk st [0x47] 188 then .ok (some ⟨"mts", "video/mp2t"⟩)
      else if chk st [0x47] 4 && chk st [0x47] 196 then .ok (some ⟨"mts", "video/mp2t"⟩)
      else if chk st [0x42, 0x4F, 0x4F, 0x4B, 0x4D, 0x4F, 0x42, 0x49] 60 then
        .ok (some ⟨"mobi", "application/x-mobipocket-ebook"⟩)
      else if chk st [0x44, 0x49, 0x43, 0x4D] 128 then .ok (some ⟨"dcm", "application/dicom"⟩)
      else if chk st [0x4C, 0x00, 0x00, 0x00, 0x01, 0x14, 0x02, 0x00, 0x00, 0x00,
          0x00, 0x00, 0xC0, 0x00, 0x00, 0x00, 0x00, 0x00, 0x00, 0x46] 0 then
        .ok (some ⟨"lnk", "application/x.ms.shortcut"⟩)
      else if chk st [0x62, 0x6F, 0x6F, 0x6B, 0x00, 0x00, 0x00, 0x00, 0x6D, 0x61,
          0x72, 0x6B, 0x00, 0x00, 0x00, 0x00] 0 then
        .ok (some ⟨"alias", "application/x.apple.alias"⟩)
      else if chk st [0x4C, 0x50] 34
          && (chk st [0x00, 0x00, 0x01] 8 || chk st [0x01, 0x00, 0x02] 8
              || chk st [0x02, 0x00, 0x02] 8) then
        .ok (some ⟨"eot", "application/vnd.ms-fontobject"⟩)
      else if chk st [0x06, 0x06, 0xED, 0xF5, 0xD8, 0x1D, 0x46, 0xE5, 0xBD, 0x31,
          0xEF, 0xE7, 0xFE, 0x74, 0xB7, 0x1D] 0 then
        .ok (some ⟨"indd", "application/x-indesign"⟩)
      else stage9 st

/-- The probes that need the 256-byte sample: text signatures, ASAR, MXF, S3M,
MPEG-TS, MOBI, DICOM, LNK, alias, EOT and InDesign. -/
def stage8 (st0 : St) : PR :=
  let st := setWindow st0 (min 256 (size st0))
  if chk st (stringToBytes "BEGIN:") 0 then
    (if chk st (stringToBytes "VCARD") 6 then .ok (some ⟨"vcf", "text/vcard"⟩)
    else if chk st (stringToBytes "VCALENDAR") 6 then .ok (some ⟨"ics", "text/calendar"⟩)
    else stage8a st)
  else stage8a st

/-- The unsafe 4- and 8-byte signatures before the 256-byte escalation. -/
def stage7 (st : St) : PR :=
  if chk st [0x00, 0x00, 0x01, 0xBA] 0 || chk st [0x00, 0x00, 0x01, 0xB3] 0 then
    .ok (some ⟨"mpg", "video/mpeg"⟩)
  else if chk st [0x00, 0x01, 0x00, 0x00, 0x00] 0 then .ok (some ⟨"ttf", "font/ttf"⟩)
  else if chk st [0x00, 0x00, 0x01, 0x00] 0 then .ok (some ⟨"ico", "image/x-icon"⟩)
  else if chk st [0x00, 0x00, 0x02, 0x00] 0 then .ok (some ⟨"cur", "image/x-icon"⟩)
  else if chk st [0xD0, 0xCF, 0x11, 0xE0, 0xA1, 0xB1, 0x1A, 0xE1] 0 then
    .ok (some ⟨"cfb", "application/x-cfb"⟩)
  else stage8 st

/-- The 9- and 12-byte signatures: ORF, XCF, RW2, ASF, KTX, MIE, Shapefile,
JPEG 2000, JPEG XL and the UTF-16 LE BOM group (which terminates). -/
def stage6 (st : St) : PR :=
  if chk st [0x49, 0x49, 0x52, 0x4F, 0x08, 0x00, 0x00, 0x00, 0x18] 0 then
    .ok (some ⟨"orf", "image/x-olympus-orf"⟩)
  else if chk st (stringToBytes "gimp xcf ") 0 then .ok (some ⟨"xcf", "image/x-xcf"⟩)
  else if chk st [0x49, 0x49, 0x55, 0x00, 0x18, 0x00, 0x00, 0x00, 0x88, 0xE7,
      0x74, 0xD8] 0 then
    .ok (some ⟨"rw2", "image/x-panasonic-rw2"⟩)
  else if chk st [0x30, 0x26, 0xB2, 0x75, 0x8E, 0x66, 0xCF, 0x11, 0xA6, 0xD9] 0 then
    asfBranch st
  else if chk st [0xAB, 0x4B, 0x54, 0x58, 0x20, 0x31, 0x31, 0xBB, 0x0D, 0x0A,
      0x1A, 0x0A] 0 then
    .ok (some ⟨"ktx", "image/ktx"⟩)
  else if (chk st [0x7E, 0x10, 0x04] 0 || chk st [0x7E, 0x18, 0x04] 0)
      && chk st [0x30, 0x4D, 0x49, 0x45] 4 then
    .ok (some ⟨"mie", "application/x-mie"⟩)
  else if chk st [0x27, 0x0A, 0x00, 0x00, 0x00, 0x00, 0x00, 0x00, 0x00, 0x00,
      0x00, 0x00] 2 then
    .ok (some ⟨"shp", "application/x-esri-shape"⟩)
  else if chk st [0x00, 0x00, 0x00, 0x0C, 0x6A, 0x50, 0x20, 0x20, 0x0D, 0x0A,
      0x87, 0x0A] 0 then
    jp2Branch st
  else if chk st [0xFF, 0x0A] 0
      || chk st [0x00, 0x00, 0x00, 0x0C, 0x4A, 0x58, 0x4C, 0x20, 0x0D, 0x0A,
          0x87, 0x0A] 0 then
    .ok (some ⟨"jxl", "image/jxl"⟩)
  else if chk st [0xFE, 0xFF] 0 then
    (if chk st [0, 60, 0, 63, 0, 120, 0, 109, 0, 108] 2 then
      .ok (some ⟨"xml", "application/xml"⟩)
    else .ok none)
  else stage7 st

/-- The 6- to 8-byte signatures: XZ, XML, 7z, RAR, STL, Blender, ar/deb, PNG,
Arrow, glTF and the mov box names. -/
def stage5 (st : St) : PR :=
  if chk st [0xFD, 0x37, 0x7A, 0x58, 0x5A, 0x00] 0 then .ok (some ⟨"xz", "application/x-xz"⟩)
  else if chk st (stringToBytes "<?xml ") 0 then .ok (some ⟨"xml", "application/xml"⟩)
  else if chk st [0x37, 0x7A, 0xBC, 0xAF, 0x27, 0x1C] 0 then
    .ok (some ⟨"7z", "application/x-7z-compressed"⟩)
  else if chk st [0x52, 0x61, 0x72, 0x21, 0x1A, 0x07] 0
      && (byteAtD st.buf 6 0 = 0x0 || byteAtD st.buf 6 0 = 0x1) then
    .ok (some ⟨"rar", "application/x-rar-compressed"⟩)
  else if chk st (stringToBytes "solid ") 0 then .ok (some ⟨"stl", "model/stl"⟩)
  else if chk st (stringToBytes "BLENDER") 0 then .ok (some ⟨"blend", "application/x-blender"⟩)
  else if chk st (stringToBytes "!<arch>") 0 then arBranch st
  else if chk st [0x89, 0x50, 0x4E, 0x47, 0x0D, 0x0A, 0x1A, 0x0A] 0 then pngBranch st
  else if chk st [0x41, 0x52, 0x52, 0x4F, 0x57, 0x31, 0x00, 0x00] 0 then
    .ok (some ⟨"arrow", "application/x-apache-arrow"⟩)
  else if chk st [0x67, 0x6C, 0x54, 0x46, 0x02, 0x00, 0x00, 0x00] 0 then
    .ok (some ⟨"glb", "model/gltf-binary"⟩)
  else if chk st [0x66, 0x72, 0x65, 0x65] 4 || chk st [0x6D, 0x64, 0x61, 0x74] 4
      || chk st [0x6D, 0x6F, 0x6F, 0x76] 4 || chk st [0x77, 0x69, 0x64, 0x65] 4 then
    .ok (some ⟨"mov", "video/quicktime"⟩)
  else stage6 st

/-- Continuation of stage 4 after the MPEG-PS group (which can fall through). -/
def stage4a (st : St) : PR :=
  if chk st (stringToBytes "ITSF") 0 then .ok (some ⟨"chm", "application/vnd.ms-htmlhelp"⟩)
  else stage5 st

/-- The remaining 4- and 5-byte signatures: SQLite, NES, CRX, CAB, RPM, EPS,
Zstandard, ELF, OTF, AMR, RTF, FLV, IT, LZH, MPEG-PS and CHM. -/
def stage4 (st : St) : PR :=
  if chk st (stringToBytes "SQLi") 0 then .ok (some ⟨"sqlite", "application/x-sqlite3"⟩)
  else if chk st [0x4E, 0x45, 0x53, 0x1A] 0 then
    .ok (some ⟨"nes", "application/x-nintendo-nes-rom"⟩)
  else if chk st (stringToBytes "Cr24") 0 then
    .ok (some ⟨"crx", "application/x-google-chrome-extension"⟩)
  else if chk st (stringToBytes "MSCF") 0 || chk st (stringToBytes "ISc(") 0 then
    .ok (some ⟨"cab", "application/vnd.ms-cab-compressed"⟩)
  else if chk st [0xED, 0xAB, 0xEE, 0xDB] 0 then .ok (some ⟨"rpm", "application/x-rpm"⟩)
  else if chk st [0xC5, 0xD0, 0xD3, 0xC6] 0 then .ok (some ⟨"eps", "application/eps"⟩)
  else if chk st [0x28, 0xB5, 0x2F, 0xFD] 0 then .ok (some ⟨"zst", "application/zstd"⟩)
  else if chk st [0x7F, 0x45, 0x4C, 0x46] 0 then .ok (some ⟨"elf", "application/x-elf"⟩)
  else if chk st [0x4F, 0x54, 0x54, 0x4F, 0x00] 0 then .ok (some ⟨"otf", "font/otf"⟩)
  else if chk st (stringToBytes "#!AMR") 0 then .ok (some ⟨"amr", "audio/amr"⟩)
  else if chk st [0x7B, 0x5C, 0x72, 0x74, 0x66] 0 then .ok (some ⟨"rtf", "application/rtf"⟩)
  else if chk st [0x46, 0x4C, 0x56, 0x01] 0 then .ok (some ⟨"flv", "video/x-flv"⟩)
  else if chk st (stringToBytes "IMPM") 0 then .ok (some ⟨"it", "audio/x-it"⟩)
  else if chk st (stringToBytes "-lh0-") 2 || chk st (stringToBytes "-lh1-") 2
      || chk st (stringToBytes "-lh2-") 2 || chk st (stringToBytes "-lh3-") 2
      || chk st (stringToBytes "-lh4-") 2 || chk st (stringToBytes "-lh5-") 2
      || chk st (stringToBytes "-lh6-") 2 || chk st (stringToBytes "-lh7-") 2
      || chk st (stringToBytes "-lzs-") 2 || chk st (stringToBytes "-lz4-") 2
      || chk st (stringToBytes "-lz5-") 2 || chk st (stringToBytes "-lhd-") 2 then
    .ok (some ⟨"lzh", "application/x-lzh-compressed"⟩)
  else if chk st [0x00, 0x00, 0x01, 0xBA] 0 then
    (if chkm st [0x21] 4 [0xF1] then .ok (some ⟨"mpg", "video/MP1S"⟩)
    else if chkm st [0x44] 4 [0xC4] then .ok (some ⟨"mpg", "video/MP2P"⟩)
    else stage4a st)
  else stage4a st

/-- Continuation after the TIFF probes: APE, EBML, RIFF (fall-through). -/
def stage3b (st : St) : PR :=
  if chk st (stringToBytes "MAC ") 0 then .ok (some ⟨"ape", "audio/ape"⟩)
  else if chk st [0x1A, 0x45, 0xDF, 0xA3] 0 then ebmlBranch st
  else if chk st [0x52, 0x49, 0x46, 0x46] 0 then
    (if chk st [0x41, 0x56, 0x49] 8 then .ok (some ⟨"avi", "video/vnd.avi"⟩)
    else if chk st [0x57, 0x41, 0x56, 0x45] 8 then .ok (some ⟨"wav", "audio/vnd.wave"⟩)
    else if chk st [0x51, 0x4C, 0x43, 0x4D] 8 then .ok (some ⟨"qcp", "audio/qcelp"⟩)
    else stage4 st)
  else stage4 st

/-- Continuation after the little-endian TIFF probe. -/
def stage3a (st : St) : PR :=
  if chk st [0x4D, 0x4D] 0 then
    match readTiffHeader true st with
    | .error e => .error e
    | .ok (some ft) => .ok (some ft)
    | .ok none => stage3b st
  else stage3b st

/-- TIFF (both byte orders, possibly falling through), APE, EBML and RIFF. -/
def stage3 (st : St) : PR :=
  if chk st [0x49, 0x49] 0 then
    match readTiffHeader false st with
    | .error e => .error e
    | .ok (some ft) => .ok (some ft)
    | .ok none => stage3a st
  else stage3a st

/-- ZIP-based containers, Ogg, plain ZIP, ISO-BMFF ftyp, and the signatures up
to the PDF probe. -/
def stage2 (st : St) : PR :=
  if chk st [0x50, 0x4B, 0x03, 0x04] 0 then zipBranch st
  else if chk st (stringToBytes "OggS") 0 then oggProbe st
  else if chk st [0x50, 0x4B] 0
      && (byteAtD st.buf 2 0 = 0x3 || byteAtD st.buf 2 0 = 0x5 || byteAtD st.buf 2 0 = 0x7)
      && (byteAtD st.buf 3 0 = 0x4 || byteAtD st.buf 3 0 = 0x6 || byteAtD st.buf 3 0 = 0x8) then
    .ok (some ⟨"zip", "application/zip"⟩)
  else if chk st (stringToBytes "ftyp") 4 && (byteAtD st.buf 8 0) &&& 0x60 ≠ 0 then
    .ok (some (ftypResult st.buf))
  else if chk st (stringToBytes "MThd") 0 then .ok (some ⟨"mid", "audio/midi"⟩)
  else if chk st (stringToBytes "wOFF") 0
      && (chk st [0x00, 0x01, 0x00, 0x00] 4 || chk st (stringToBytes "OTTO") 4) then
    .ok (some ⟨"woff", "font/woff"⟩)
  else if chk st (stringToBytes "wOF2") 0
      && (chk st [0x00, 0x01, 0x00, 0x00] 4 || chk st (stringToBytes "OTTO") 4) then
    .ok (some ⟨"woff2", "font/woff2"⟩)
  else if chk st [0xD4, 0xC3, 0xB2, 0xA1] 0 || chk st [0xA1, 0xB2, 0xC3, 0xD4] 0 then
    .ok (some ⟨"pcap", "application/vnd.tcpdump.pcap"⟩)
  else if chk st (stringToBytes "DSD ") 0 then .ok (some ⟨"dsf", "audio/x-dsf"⟩)
  else if chk st (stringToBytes "LZIP") 0 then .ok (some ⟨"lz", "application/x-lzip"⟩)
  else if chk st (stringToBytes "fLaC") 0 then .ok (some ⟨"flac", "audio/x-flac"⟩)
  else if chk st [0x42, 0x50, 0x47, 0xFB] 0 then .ok (some ⟨"bpg", "image/bpg"⟩)
  else if chk st (stringToBytes "wvpk") 0 then .ok (some ⟨"wv", "audio/wavpack"⟩)
  else if chk st (stringToBytes "%PDF") 0 then pdfBranch st
  else if chk st [0x00, 0x61, 0x73, 0x6D] 0 then .ok (some ⟨"wasm", "application/wasm"⟩)
  else stage3 st

/-- Head of the cascade after the parse wrapper: Musepack, SWF and the first
4-byte string signatures. -/
def stage1 (st : St) : PR :=
  if chk st (stringToBytes "MP+") 0 then .ok (some ⟨"mpc", "audio/x-musepack"⟩)
  else if (byteAtD st.buf 0 0 = 0x43 || byteAtD st.buf 0 0 = 0x46) && chk st [0x57, 0x53] 1 then
    .ok (some ⟨"swf", "application/x-shockwave-flash"⟩)
  else if chk st (stringToBytes "FLIF") 0 then .ok (some ⟨"flif", "image/flif"⟩)
  else if chk st (stringToBytes "8BPS") 0 then .ok (some ⟨"psd", "image/vnd.adobe.photoshop"⟩)
  else if chk st (stringToBytes "WEBP") 8 then .ok (some ⟨"webp", "image/webp"⟩)
  else if chk st (stringToBytes "MPCK") 0 then .ok (some ⟨"mpc", "audio/x-musepack"⟩)
  else if chk st (stringToBytes "FORM") 0 then .ok (some ⟨"aif", "audio/aiff"⟩)
  else if chk st (stringToBytes "icns") 0 then .ok (some ⟨"icns", "image/icns"⟩)
  else stage2 st

/-- The tail of the ID3 group of FileTypeParser.parse: read the four sync-safe
length bytes and restart beyond the tag, or report mp3 when the tag extends
past the end of the stream. -/
def id3Case (recurse : St → PR) (st1 : St) : PR :=
  match readExact st1 4 with
  | .error e => .error e
  | .ok (b4, st2) =>
    let id3HeaderLength := uint32SyncSafeGet b4 0
    if size st2 < st2.pos + id3HeaderLength then .ok (some ⟨"mp3", "audio/mpeg"⟩)
    else recurse (ignoreN st2 id3HeaderLength)

/-- Body of FileTypeParser.parse: allocate the 4100-byte working buffer, peek
the first 12 bytes, then run the 2- and 3-byte probes, the BOM and ID3
restarts (through the recurse parameter) and the rest of the cascade. -/
def parseBody (recurse : St → PR) (st0 : St) : PR :=
    let st : St := ⟨st0.data, st0.pos, writeBytes (List.replicate minimumBytes 0) (peekBytes st0 12)⟩
    if chk st [0x42, 0x4D] 0 then .ok (some ⟨"bmp", "image/bmp"⟩)
    else if chk st [0x0B, 0x77] 0 then .ok (some ⟨"ac3", "audio/vnd.dolby.dd-raw"⟩)
    else if chk st [0x78, 0x01] 0 then .ok (some ⟨"dmg", "application/x-apple-diskimage"⟩)
    else if chk st [0x4D, 0x5A] 0 then .ok (some ⟨"exe", "application/x-msdownload"⟩)
    else if chk st [0x25, 0x21] 0 then epsBranch st
    else if chk st [0x1F, 0xA0] 0 || chk st [0x1F, 0x9D] 0 then
      .ok (some ⟨"Z", "application/x-compress"⟩)
    else if chk st [0xEF, 0xBB, 0xBF] 0 then recurse (ignoreN st 3)
    else if chk st [0x47, 0x49, 0x46] 0 then .ok (some ⟨"gif", "image/gif"⟩)
    else if chk st [0xFF, 0xD8, 0xFF] 0 then .ok (some ⟨"jpg", "image/jpeg"⟩)
    else if chk st [0x49, 0x49, 0xBC] 0 then .ok (some ⟨"jxr", "image/vnd.ms-photo"⟩)
    else if chk st [0x1F, 0x8B, 0x8] 0 then .ok (some ⟨"gz", "application/gzip"⟩)
    else if chk st [0x42, 0x5A, 0x68] 0 then .ok (some ⟨"bz2", "application/x-bzip2"⟩)
    else if chk st (stringToBytes "ID3") 0 then id3Case recurse (ignoreN st 6)
    else stage1 st

/-- FileTypeParser.parse with fuel for the BOM and ID3 restarts; every restart
advances the tokenizer by at least 3 bytes, so any fuel above the remaining
byte count makes the result fuel-independent (parseF_fuel below). -/
def parseF : Nat → St → PR
  | 0, _ => .ok none
  | fuel+1, st => parseBody (parseF fuel) st

/-- Run the dispatcher with enough fuel for all restarts. -/
def parseRun (st : St) : PR := parseF (rem st + 1) st

/-- fileTypeFromTokenizer.  In the source the call to parse is returned from
inside a try block without await: the promise escapes the try before it
settles, so the catch clause (which would convert EndOfStream into the unknown
result) never observes an asynchronous rejection, and every error — including
EndOfStream — propagates to the caller.  The embedding is therefore parse
itself. -/
def fileTypeFromTokenizer (st : St) : PR := parseRun st

/-- What the catch clause was evidently meant to do (and what the spec says):
convert EndOfStream into the unknown result.  Kept separately so the divergence
can be stated. -/
def fileTypeFromTokenizerIntended (st : St) : PR :=
  match parseRun st with
  | .error .endOfStream => .ok none
  | r => r

/-- fromBuffer: a BufferTokenizer over the bytes (size = length, position 0). -/
def fromBuffer (data : List Nat) : St := ⟨data, 0, []⟩

/-- fileTypeFromBuffer: inputs of length at most 1 give the unknown result
without running the dispatcher. -/
def fileTypeFromBuffer (input : List Nat) : PR :=
  if 1 < input.length then fileTypeFromTokenizer (fromBuffer input) else .ok none

/-- The tokenizer opener used by fileTypeFromFile: in the built file it is the
undefined value (the import that should provide it is missing), modelled as
none. -/
def fileTypeFromFileOpener : Option (String → St) := none

/-- fileTypeFromFile: awaits opener(path) before the try block; calling the
undefined opener throws a TypeError, so no detection ever runs. -/
def fileTypeFromFile (path : String) : PR :=
  match fileTypeFromFileOpener with
  | none => .error .typeError
  | some f => fileTypeFromTokenizer (f path)

/-! ## The static catalogs (supportedExtensions / supportedMimeTypes) -/

/-- The extensions array from the source, in order. -/
def extensions : List String :=
  ["jpg", "png", "apng", "gif", "webp", "flif", "xcf", "cr2", "cr3", "orf",
   "arw", "dng", "nef", "rw2", "raf", "tif", "bmp", "icns", "jxr", "psd",
   "indd", "zip", "tar", "rar", "gz", "bz2", "7z", "dmg", "mp4", "mid",
   "mkv", "webm", "mov", "avi", "mpg", "mp2", "mp3", "m4a", "oga", "ogg",
   "ogv", "opus", "flac", "wav", "spx", "amr", "pdf", "epub", "elf", "exe",
   "swf", "rtf", "wasm", "woff", "woff2", "eot", "ttf", "otf", "ico", "flv",
   "ps", "xz", "sqlite", "nes", "crx", "xpi", "cab", "deb", "ar", "rpm",
   "Z", "lz", "cfb", "mxf", "mts", "blend", "bpg", "docx", "pptx", "xlsx",
   "3gp", "3g2", "jp2", "jpm", "jpx", "mj2", "aif", "qcp", "odt", "ods",
   "odp", "xml", "mobi", "heic", "cur", "ktx", "ape", "wv", "dcm", "ics",
   "glb", "pcap", "dsf", "lnk", "alias", "voc", "ac3", "m4v", "m4p", "m4b",
   "f4v", "f4p", "f4b", "f4a", "mie", "asf", "ogm", "ogx", "mpc", "arrow",
   "shp", "aac", "mp1", "it", "s3m", "xm", "ai", "skp", "avif", "eps",
   "lzh", "pgp", "asar", "stl", "chm", "3mf", "zst", "jxl", "vcf"]

/-- The mimeTypes array from the source, in order. -/
def mimeTypes : List String :=
  ["image/jpeg", "image/png", "image/gif", "image/webp", "image/flif",
   "image/x-xcf", "image/x-canon-cr2", "image/x-canon-cr3", "image/tiff",
   "image/bmp", "image/vnd.ms-photo", "image/vnd.adobe.photoshop",
   "application/x-indesign", "application/epub+zip", "application/x-xpinstall",
   "application/vnd.oasis.opendocument.text",
   "application/vnd.oasis.opendocument.spreadsheet",
   "application/vnd.oasis.opendocument.presentation",
   "application/vnd.openxmlformats-officedocument.wordprocessingml.document",
   "application/vnd.openxmlformats-officedocument.presentationml.presentation",
   "application/vnd.openxmlformats-officedocument.spreadsheetml.sheet",
   "application/zip", "application/x-tar", "application/x-rar-compressed",
   "application/gzip", "application/x-bzip2", "application/x-7z-compressed",
   "application/x-apple-diskimage", "application/x-apache-arrow",
   "video/mp4", "audio/midi", "video/x-matroska", "video/webm",
   "video/quicktime", "video/vnd.avi", "audio/vnd.wave", "audio/qcelp",
   "audio/x-ms-asf", "video/x-ms-asf", "application/vnd.ms-asf",
   "video/mpeg", "video/3gpp", "audio/mpeg", "audio/mp4", "audio/opus",
   "video/ogg", "audio/ogg", "application/ogg", "audio/x-flac", "audio/ape",
   "audio/wavpack", "audio/amr", "application/pdf", "application/x-elf",
   "application/x-msdownload", "application/x-shockwave-flash",
   "application/rtf", "application/wasm", "font/woff", "font/woff2",
   "application/vnd.ms-fontobject", "font/ttf", "font/otf", "image/x-icon",
   "video/x-flv", "application/postscript", "application/eps",
   "application/x-xz", "application/x-sqlite3",
   "application/x-nintendo-nes-rom", "application/x-google-chrome-extension",
   "application/vnd.ms-cab-compressed", "application/x-deb",
   "application/x-unix-archive", "application/x-rpm",
   "application/x-compress", "application/x-lzip", "application/x-cfb",
   "application/x-mie", "application/mxf", "video/mp2t",
   "application/x-blender", "image/bpg", "image/jp2", "image/jpx",
   "image/jpm", "image/mj2", "audio/aiff", "application/xml",
   "application/x-mobipocket-ebook", "image/heif", "image/heif-sequence",
   "image/heic", "image/heic-sequence", "image/icns", "image/ktx",
   "application/dicom", "audio/x-musepack", "text/calendar", "text/vcard",
   "model/gltf-binary", "application/vnd.tcpdump.pcap", "audio/x-dsf",
   "application/x.ms.shortcut", "application/x.apple.alias", "audio/x-voc",
   "audio/vnd.dolby.dd-raw", "audio/x-m4a", "image/apng",
   "image/x-olympus-orf", "image/x-sony-arw", "image/x-adobe-dng",
   "image/x-nikon-nef", "image/x-panasonic-rw2", "image/x-fujifilm-raf",
   "video/x-m4v", "video/3gpp2", "application/x-esri-shape", "audio/aac",
   "audio/x-it", "audio/x-s3m", "audio/x-xm", "video/MP1S", "video/MP2P",
   "application/vnd.sketchup.skp", "image/avif",
   "application/x-lzh-compressed", "application/pgp-encrypted",
   "application/x-asar", "model/stl", "application/vnd.ms-htmlhelp",
   "model/3mf", "image/jxl", "application/zstd"]

/-- supportedExtensions (a Set in the source; membership is what matters). -/
def supportedExtensions : List String := extensions

/-- supportedMimeTypes. -/
def supportedMimeTypes : List String := mimeTypes

/-! ## Specification-side definitions, written from the claims' wording -/

/-- The value claim C2 ascribes to the sync-safe decoder: ignore bit 7 of each
of the four bytes and concatenate the remaining 7 bits, most significant byte
first. -/
def syncSafeClaimValue (b : List Nat) (off : Nat) : Nat :=
  (byteAtD b off 0 % 128) * 2 ^ 21 + (byteAtD b (off+1) 0 % 128) * 2 ^ 14
    + (byteAtD b (off+2) 0 % 128) * 2 ^ 7 + (byteAtD b (off+3) 0 % 128)

/-- Claim C3's failure clause as stated: whenever a compared position lies
beyond the number of bytes actually peeked into the sample buffer, the probe
fails, no matter what the header byte at that index is. -/
def c3BeyondPeekAlwaysFails : Prop :=
  ∀ (peeked headers : List Nat) (offset : Nat) (mask : Option (List Nat)) (i : Nat),
    i < headers.length → peeked.length ≤ offset + i →
    _check (writeBytes (List.replicate minimumBytes 0) peeked) headers offset mask = false

/-- The per-index comparison described by claim C3 (with the out-of-range
behaviour the code actually has): without a mask the header byte must equal the
buffer byte, and a position outside the allocated buffer fails; with a mask the
comparison is against mask[i] band buffer[offset+i], where JavaScript coerces
an out-of-range byte to 0. -/
def checkSpecAt (buffer : List Nat) (offset : Nat) (mask : Option (List Nat))
    (headers : List Nat) (i : Nat) : Prop :=
  match mask with
  | none => ∃ b, byteAt buffer (offset + i) = some b ∧ byteAtD headers i 0 = b
  | some m => byteAtD headers i 0 = (byteAtD m i 0) &&& (byteAtD buffer (offset + i) 0)

/-- The PNG chunk walk exactly as claim C7 words it: repeatedly read a chunk
header of a signed 32-bit big-endian length and a 4-byte type; png on the
first IDAT, apng on an acTL seen before any IDAT, the unknown result on a
negative length, otherwise skip length + 4 bytes and continue while
position + 8 < size (the source returns png when the loop bound stops it). -/
def pngClaimWalk : Nat → St → PR
  | 0, _ => .ok (some ⟨"png", "image/png"⟩)
  | fuel+1, st =>
    match readExact st 4 with
    | .error e => .error e
    | .ok (lenB, st1) =>
      let len := readInt32BE lenB 0
      match readExact st1 4 with
      | .error e => .error e
      | .ok (typeB, st2) =>
        if len < 0 then .ok none
        else if typeB = stringToBytes "IDAT" then .ok (some ⟨"png", "image/png"⟩)
        else if typeB = stringToBytes "acTL" then .ok (some ⟨"apng", "image/apng"⟩)
        else
          let st3 := ignoreN st2 (len.toNat + 4)
          if st3.pos + 8 < size st3 then pngClaimWalk fuel st3
          else .ok (some ⟨"png", "image/png"⟩)

/-- Claim C7's description of the whole PNG branch: skip the 8 signature bytes
of the input, then run the chunk walk. -/
def pngClaimRun (input : List Nat) : PR :=
  let st1 := ignoreN (fromBuffer input) 8
  pngClaimWalk (rem st1 + 1) st1

/-- A tokenizer state over a prefix-extended byte sequence: same cursor and
working buffer, the underlying data preceded by extra bytes (used to state
that detection only depends on the bytes at and after the cursor). -/
def shiftSt (P : List Nat) (st : St) : St :=
  ⟨P ++ st.data, P.length + st.pos, st.buf⟩

/-- A tokenizer state over a suffix-extended byte sequence: used to state
prefix-stability. -/
def extSt (Y : List Nat) (st : St) : St :=
  ⟨st.data ++ Y, st.pos, st.buf⟩

/-- Decidable equality of dispatcher results. -/
instance : DecidableEq PR :=
  fun a b =>
    match a, b with
    | .error e1, .error e2 =>
      if h : e1 = e2 then isTrue (by rw [h]) else isFalse (fun hh => by cases hh; exact h rfl)
    | .ok o1, .ok o2 =>
      if h : o1 = o2 then isTrue (by rw [h]) else isFalse (fun hh => by cases hh; exact h rfl)
    | .error _, .ok _ => isFalse (fun hh => by cases hh)
    | .ok _, .error _ => isFalse (fun hh => by cases hh)

/-- Whenever the result is a detection pair, it lies in the catalogs. -/
def resOk (r : PR) : Prop :=
  ∀ ft : FileType, r = .ok (some ft) → ft.ext ∈ supportedExtensions ∧ ft.mime ∈ supportedMimeTypes

/-- The catalog predicate for the stateful TIFF tag scan results. -/
def tagOk (r : Except JsErr (Option FileType × St)) : Prop :=
  ∀ (ft : FileType) (st2 : St), r = .ok (some ft, st2) →
    ft.ext ∈ supportedExtensions ∧ ft.mime ∈ supportedMimeTypes

/-- The catalog predicate for the TIFF header results. -/
def optOk (r : Except JsErr (Option FileType)) : Prop :=
  ∀ ft : FileType, r = .ok (some ft) → ft.ext ∈ supportedExtensions ∧ ft.mime ∈ supportedMimeTypes

/-- The MPEG-TS detection pair (the only mts literal in the dispatcher). -/
def mtsFT : FileType := ⟨"mts", "video/mp2t"⟩

/-- The result is not the MPEG-TS detection (used to show that container walks
cannot produce it). -/
def noMts (r : PR) : Prop := r ≠ .ok (some mtsFT)

/-- noMts for the stateful TIFF scan results. -/
def tagNoMts (r : Except JsErr (Option FileType × St)) : Prop :=
  ∀ st2 : St, r ≠ .ok (some mtsFT, st2)

/-- noMts for the TIFF header results. -/
def optNoMts (r : Except JsErr (Option FileType)) : Prop := r ≠ .ok (some mtsFT)

/-- The TIFF header result is not the unknown fall-through (holds on the
version-42 and version-43 paths). -/
def optNotNone (r : Except JsErr (Option FileType)) : Prop := r ≠ .ok none

/-- If the first result is the MPEG-TS detection then so is the second: the
propagation relation used to prove the amended prefix-stability claim. -/
def mtsTo (r s : PR) : Prop := r = .ok (some mtsFT) → s = .ok (some mtsFT)

/-! ## Lemmas about the byte accessors -/

theorem byteAt_eq_getElem? (l : List Nat) (i : Nat) : byteAt l i = l[i]? := by
  induction l generalizing i with
  | nil => cases i <;> rfl
  | cons a t ih =>
    cases i with
    | zero => simp [byteAt]
    | succ n => simpa [byteAt] using ih n

theorem byteAtD_eq_getD (l : List Nat) (i d : Nat) : byteAtD l i d = l.getD i d := by
  rw [byteAtD, byteAt_eq_getElem?, List.getD_eq_getElem?_getD]
  cases l[i]? <;> rfl

/-! ## Claim C1: EndOfStream handling at the dispatcher boundary (code bug)

fileTypeFromTokenizer returns the parse promise from inside its try block
without awaiting it, so the catch clause never sees the asynchronous
EndOfStream rejection: the error propagates to the caller instead of being
converted to the unknown result.  On the three bytes of "ID3" the ID3 walker
reads past the end of the input, and the promise rejects. -/

/-- On the input "ID3" the dispatcher raises EndOfStream, and
fileTypeFromTokenizer as written propagates it, while the conversion the catch
clause was written for (and the spec describes) would give the unknown
result. -/
theorem c1_endOfStream_escapes :
    fileTypeFromTokenizer (fromBuffer [0x49, 0x44, 0x33]) = .error .endOfStream ∧
    fileTypeFromTokenizerIntended (fromBuffer [0x49, 0x44, 0x33]) = .ok none :=
  ⟨rfl, rfl⟩

/-! ## Claim C2: the sync-safe token decoder -/

/-- Counterexample to C2 as stated: on the buffer 80 00 00 00 the decoder
returns 2 ^ 28 (bit 7 of the first byte is shifted in, not ignored), while the
claimed 28-bit concatenation is 0 and the claimed bound fails. -/
theorem c2_counterexample :
    uint32SyncSafeGet [0x80, 0, 0, 0] 0 = 2 ^ 28 ∧
    syncSafeClaimValue [0x80, 0, 0, 0] 0 = 0 ∧
    ¬ uint32SyncSafeGet [0x80, 0, 0, 0] 0 < 2 ^ 28 := by
  refine ⟨by decide, by decide, by decide⟩

/-- Amended C2: the decoder masks bit 7 of the last byte only; whenever the
high bit of each of the first three bytes is clear (as the sync-safe convention
guarantees for well-formed data), the result is the claimed 28-bit
concatenation and lies below 2 ^ 28. -/
theorem c2_amended (b : List Nat) (off : Nat)
    (h0 : byteAtD b off 0 < 128) (h1 : byteAtD b (off+1) 0 < 128)
    (h2 : byteAtD b (off+2) 0 < 128) :
    uint32SyncSafeGet b off = syncSafeClaimValue b off ∧
    uint32SyncSafeGet b off < 2 ^ 28 := by
  have hm : ∀ x : Nat, x &&& 0x7F = x % 128 := fun x => by
    have h := Nat.and_pow_two_sub_one_eq_mod x 7
    norm_num at h
    exact h
  have key : uint32SyncSafeGet b off = syncSafeClaimValue b off := by
    rw [uint32SyncSafeGet, syncSafeClaimValue, hm]
    rw [Nat.shiftLeft_eq, Nat.shiftLeft_eq, Nat.shiftLeft_eq]
    rw [Nat.mod_eq_of_lt h0, Nat.mod_eq_of_lt h1, Nat.mod_eq_of_lt h2]
    set a0 := byteAtD b off 0 with ha0
    set a1 := byteAtD b (off+1) 0 with ha1
    set a2 := byteAtD b (off+2) 0 with ha2
    set m := byteAtD b (off+3) 0 % 128 with hm3
    have hmlt : m < 128 := Nat.mod_lt _ (by norm_num)
    have b1 : 2 ^ 14 * a1 < 2 ^ 21 := by
      have := h1
      norm_num at this ⊢
      omega
    have b2 : 2 ^ 7 * a2 < 2 ^ 14 := by
      have := h2
      norm_num at this ⊢
      omega
    have s1 : a1 * 2 ^ 14 ||| a0 * 2 ^ 21 = 2 ^ 21 * a0 + 2 ^ 14 * a1 := by
      rw [Nat.lor_comm, mul_comm a0, mul_comm a1]
      exact (Nat.mul_add_lt_is_or b1 a0).symm
    have s2 : a2 * 2 ^ 7 ||| (2 ^ 21 * a0 + 2 ^ 14 * a1) =
        2 ^ 14 * (2 ^ 7 * a0 + a1) + 2 ^ 7 * a2 := by
      rw [Nat.lor_comm, mul_comm a2]
      have harr : 2 ^ 21 * a0 + 2 ^ 14 * a1 = 2 ^ 14 * (2 ^ 7 * a0 + a1) := by ring
      rw [harr]
      exact (Nat.mul_add_lt_is_or b2 _).symm
    have s3 : m ||| (2 ^ 14 * (2 ^ 7 * a0 + a1) + 2 ^ 7 * a2) =
        2 ^ 7 * (2 ^ 7 * (2 ^ 7 * a0 + a1) + a2) + m := by
      rw [Nat.lor_comm]
      have harr : 2 ^ 14 * (2 ^ 7 * a0 + a1) + 2 ^ 7 * a2 =
          2 ^ 7 * (2 ^ 7 * (2 ^ 7 * a0 + a1) + a2) := by ring
      rw [harr]
      exact (Nat.mul_add_lt_is_or (by norm_num; omega) _).symm
    rw [s1, s2, s3]
    ring
  refine ⟨key, ?_⟩
  rw [key, syncSafeClaimValue]
  have g0 := Nat.mod_lt (byteAtD b off 0) (y := 128) (by norm_num)
  have g1 := Nat.mod_lt (byteAtD b (off+1) 0) (y := 128) (by norm_num)
  have g2 := Nat.mod_lt (byteAtD b (off+2) 0) (y := 128) (by norm_num)
  have g3 := Nat.mod_lt (byteAtD b (off+3) 0) (y := 128) (by norm_num)
  have e : (2 : Nat) ^ 28 = 128 * 2 ^ 21 := by norm_num
  omega

/-- Witness for the amended C2 at a concrete sync-safe buffer. -/
theorem c2_amended_witness :
    uint32SyncSafeGet [0x00, 0x00, 0x02, 0x01] 0 = syncSafeClaimValue [0x00, 0x00, 0x02, 0x01] 0 ∧
    uint32SyncSafeGet [0x00, 0x00, 0x02, 0x01] 0 < 2 ^ 28 :=
  c2_amended [0x00, 0x00, 0x02, 0x01] 0 (by decide) (by decide) (by decide)

/-! ## Claim C3: the probe primitive _check -/

/-- Counterexample to C3 as stated: a compared position beyond the peeked
length does not always fail — unpeeked positions of the zero-allocated working
buffer read as 0, so a header byte 0 matches there (here: nothing peeked at
all, header 00 at offset 0, and the probe succeeds). -/
theorem c3_counterexample : ¬ c3BeyondPeekAlwaysFails := by
  intro h
  have h2 := h [] [0] 0 none 0 (by decide) (by decide)
  have h3 : _check (writeBytes (List.replicate minimumBytes 0) ([] : List Nat))
      [0] 0 none = true := by decide
  rw [h2] at h3
  cases h3

/-- Index-by-index characterisation of the _check loop, unmasked case. -/
theorem _checkAux_none_iff (buffer : List Nat) (offset : Nat) :
    ∀ (hs : List Nat) (i0 : Nat),
      _checkAux buffer offset none hs i0 = true ↔
        ∀ j, j < hs.length →
          ∃ b, byteAt buffer (i0 + j + offset) = some b ∧ byteAtD hs j 0 = b := by
  intro hs
  induction hs with
  | nil =>
    intro i0
    simp [_checkAux]
  | cons h t ih =>
    intro i0
    simp only [_checkAux, Bool.and_eq_true]
    rw [ih (i0+1)]
    constructor
    · rintro ⟨hhead, htail⟩ j hj
      match j with
      | 0 =>
        revert hhead
        cases hb : byteAt buffer (i0 + offset) with
        | none => intro hh; cases hh
        | some b =>
          intro hh
          have hh2 : h = b := by simpa using hh
          refine ⟨b, ?_, ?_⟩
          · rw [Nat.add_zero]; exact hb
          · simpa [byteAtD, byteAt] using hh2
      | n+1 =>
        simp only [List.length_cons] at hj
        obtain ⟨b, hb, he⟩ := htail n (by omega)
        refine ⟨b, ?_, ?_⟩
        · rw [show i0 + (n+1) + offset = i0 + 1 + n + offset from by ring]; exact hb
        · simpa [byteAtD, byteAt] using he
    · intro hall
      refine ⟨?_, ?_⟩
      · obtain ⟨b, hb, he⟩ := hall 0 (by simp)
        rw [Nat.add_zero] at hb
        rw [hb]
        have hhb : h = b := by simpa [byteAtD, byteAt] using he
        simp [hhb]
      · intro j hj
        obtain ⟨b, hb, he⟩ := hall (j+1) (by simp only [List.length_cons]; omega)
        refine ⟨b, ?_, ?_⟩
        · rw [show i0 + 1 + j + offset = i0 + (j+1) + offset from by ring]; exact hb
        · simpa [byteAtD, byteAt] using he

/-- Index-by-index characterisation of the _check loop, masked case. -/
theorem _checkAux_some_iff (buffer m : List Nat) (offset : Nat) :
    ∀ (hs : List Nat) (i0 : Nat),
      _checkAux buffer offset (some m) hs i0 = true ↔
        ∀ j, j < hs.length →
          byteAtD hs j 0 = (byteAtD m (i0 + j) 0) &&& (byteAtD buffer (i0 + j + offset) 0) := by
  intro hs
  induction hs with
  | nil =>
    intro i0
    simp [_checkAux]
  | cons h t ih =>
    intro i0
    simp only [_checkAux, Bool.and_eq_true]
    rw [ih (i0+1)]
    constructor
    · rintro ⟨hhead, htail⟩ j hj
      match j with
      | 0 =>
        have hhb : h = (byteAtD m i0 0) &&& (byteAtD buffer (i0 + offset) 0) := by
          simpa using hhead
        simpa [byteAtD, byteAt, Nat.add_zero] using hhb
      | n+1 =>
        simp only [List.length_cons] at hj
        have := htail n (by omega)
        rw [show i0 + (n+1) = i0 + 1 + n from by ring]
        simpa [byteAtD, byteAt] using this
    · intro hall
      refine ⟨?_, ?_⟩
      · have h0 := hall 0 (by simp)
        have : h = (byteAtD m i0 0) &&& (byteAtD buffer (i0 + offset) 0) := by
          simpa [byteAtD, byteAt, Nat.add_zero] using h0
        simp [this]
      · intro j hj
        have := hall (j+1) (by simp only [List.length_cons]; omega)
        rw [show i0 + 1 + j = i0 + (j+1) from by ring]
        simpa [byteAtD, byteAt] using this

/-- Amended C3: _check succeeds exactly when every header byte passes the
per-index comparison of checkSpecAt — against the actual working-buffer byte,
which is 0 on unpeeked positions inside the allocated 4100 bytes, with
positions outside the allocated buffer always failing in the unmasked case and
being coerced to 0 in the masked case. -/
theorem c3_amended (buffer headers : List Nat) (offset : Nat) (mask : Option (List Nat)) :
    _check buffer headers offset mask = true ↔
      ∀ i, i < headers.length → checkSpecAt buffer offset mask headers i := by
  cases mask with
  | none =>
    rw [_check, _checkAux_none_iff]
    constructor
    · intro hall i hi
      obtain ⟨b, hb, he⟩ := hall i hi
      rw [Nat.zero_add] at hb
      exact ⟨b, by rw [Nat.add_comm offset i]; exact hb, he⟩
    · intro hall j hj
      obtain ⟨b, hb, he⟩ := hall j hj
      rw [Nat.add_comm offset j] at hb
      exact ⟨b, by rw [Nat.zero_add]; exact hb, he⟩
  | some m =>
    rw [_check, _checkAux_some_iff]
    constructor
    · intro hall i hi
      have := hall i hi
      rw [Nat.zero_add] at this
      rw [checkSpecAt, Nat.add_comm offset i]
      exact this
    · intro hall j hj
      have := hall j hj
      rw [checkSpecAt, Nat.add_comm offset j] at this
      rw [Nat.zero_add]
      exact this

/-! ## Claim C8: the TAR checksum -/

/-- The biased byte-sum loops of tarHeaderChecksumMatches compute sums of
slices of the buffer. -/
theorem foldRange_byteAtD (l : List Nat) (off : Nat) :
    ∀ n, off + n ≤ l.length →
      (List.range n).foldl (fun a i => a + byteAtD l (off + i) 0) 0 =
        ((l.drop off).take n).sum := by
  intro n
  induction n with
  | zero => intro _; simp
  | succ k ih =>
    intro h
    rw [List.range_succ, List.foldl_append, ih (by omega)]
    have hk : k < (l.drop off).length := by
      rw [List.length_drop]
      omega
    rw [List.sum_take_succ _ k hk]
    have : byteAtD l (off + k) 0 = (l.drop off)[k] := by
      rw [byteAtD, byteAt_eq_getElem?]
      rw [show l[off + k]? = (l.drop off)[k]? from (List.getElem?_drop l off k).symm]
      rw [List.getElem?_eq_getElem hk]
    simp [this]

/-- C8: for a sample of at least 512 bytes, the TAR probe matches exactly when
the checksum field at bytes 148..154 — NUL-terminated, trimmed, parsed in base
8 — equals 8 * 0x20 plus the unsigned sum of bytes 0..148 and 156..512; a
non-parsable field (tarReadSum = none, the NaN case) never matches. -/
theorem c8_tarChecksum (buffer : List Nat) (h : 512 ≤ buffer.length) :
    tarHeaderChecksumMatches buffer 0 = true ↔
      ∃ n : Int, tarReadSum buffer = some n ∧
        n = 8 * 0x20 + ((buffer.take 148).sum : Int) +
          (((buffer.drop 156).take 356).sum : Int) := by
  have hsum : tarSum buffer 0 = 8 * 0x20 + (buffer.take 148).sum +
      ((buffer.drop 156).take 356).sum := by
    rw [tarSum]
    simp only [Nat.zero_add]
    have h1 := foldRange_byteAtD buffer 0 148 (by omega)
    have h2 := foldRange_byteAtD buffer 156 356 (by omega)
    simp only [Nat.zero_add] at h1
    rw [h1, h2]
    simp
  rw [tarHeaderChecksumMatches]
  cases hr : tarReadSum buffer with
  | none =>
    constructor
    · intro hfalse; cases hfalse
    · rintro ⟨n, hn, _⟩; cases hn
  | some v =>
    simp only []
    constructor
    · intro hb
      refine ⟨v, rfl, ?_⟩
      have : v = ((tarSum buffer 0 : Nat) : Int) := by simpa using hb
      rw [this, hsum]
      push_cast
      ring
    · rintro ⟨n, hn, he⟩
      have hv : v = n := by cases hn; rfl
      subst hv
      have : v = ((tarSum buffer 0 : Nat) : Int) := by
        rw [he, hsum]
        push_cast
        ring
      simpa using this

/-- Witness for C8 at a concrete 512-byte header: the checksum field 000400
(octal for 256) matches the bias 8 * 0x20 over an otherwise zero header. -/
theorem c8_witness :
    ∃ n : Int,
      tarReadSum (List.replicate 148 0 ++ (stringToBytes "000400" ++ List.replicate 358 0)) = some n ∧
      n = 8 * 0x20 +
        (((List.replicate 148 0 ++ (stringToBytes "000400" ++ List.replicate 358 0)).take 148).sum : Int) +
        ((((List.replicate 148 0 ++ (stringToBytes "000400" ++ List.replicate 358 0)).drop 156).take 356).sum : Int) :=
  (c8_tarChecksum _ (by
    simp only [List.length_append, List.length_replicate]
    have h6 : (stringToBytes "000400").length = 6 := by decide
    omega)).mp (by decide)

/-! ## Claim C5: every result lies in the exported catalogs -/

theorem resOk_ite {c : Prop} [Decidable c] {a b : PR} (ha : resOk a) (hb : resOk b) :
    resOk (if c then a else b) := by
  rcases Classical.em c with hc | hc
  · rwa [if_pos hc]
  · rwa [if_neg hc]

theorem resOk_det {ft : FileType} (h1 : ft.ext ∈ supportedExtensions)
    (h2 : ft.mime ∈ supportedMimeTypes) : resOk (.ok (some ft)) := by
  intro ft' h'
  simp only [Except.ok.injEq, Option.some.injEq] at h'
  subst h'
  exact ⟨h1, h2⟩

theorem resOk_none : resOk (.ok none) := by
  intro ft h
  simp at h

theorem resOk_err (e : JsErr) : resOk (.error e) := by
  intro ft h
  simp at h

theorem ftOk_ite {c : Prop} [Decidable c] {a b : FileType}
    (ha : a.ext ∈ supportedExtensions ∧ a.mime ∈ supportedMimeTypes)
    (hb : b.ext ∈ supportedExtensions ∧ b.mime ∈ supportedMimeTypes) :
    (if c then a else b).ext ∈ supportedExtensions ∧
      (if c then a else b).mime ∈ supportedMimeTypes := by
  rcases Classical.em c with hc | hc
  · rw [if_pos hc]; exact ha
  · rw [if_neg hc]; exact hb

theorem tagOk_det {ft : FileType} {st : St} (h1 : ft.ext ∈ supportedExtensions)
    (h2 : ft.mime ∈ supportedMimeTypes) : tagOk (.ok (some ft, st)) := by
  intro ft' st' h'
  simp only [Except.ok.injEq, Prod.mk.injEq, Option.some.injEq] at h'
  obtain ⟨h3, -⟩ := h'
  subst h3
  exact ⟨h1, h2⟩

theorem tagOk_none {st : St} : tagOk (.ok (none, st)) := by
  intro ft st' h
  simp at h

theorem tagOk_err (e : JsErr) : tagOk (.error e) := by
  intro ft st h
  simp at h

theorem optOk_ite {c : Prop} [Decidable c] {a b : Except JsErr (Option FileType)}
    (ha : optOk a) (hb : optOk b) : optOk (if c then a else b) := by
  rcases Classical.em c with hc | hc
  · rwa [if_pos hc]
  · rwa [if_neg hc]

theorem optOk_det {ft : FileType} (h1 : ft.ext ∈ supportedExtensions)
    (h2 : ft.mime ∈ supportedMimeTypes) : optOk (.ok (some ft)) := by
  intro ft' h'
  simp only [Except.ok.injEq, Option.some.injEq] at h'
  subst h'
  exact ⟨h1, h2⟩

theorem optOk_none : optOk (.ok none) := by
  intro ft h
  simp at h

theorem optOk_err (e : JsErr) : optOk (.error e) := by
  intro ft h
  simp at h

theorem oggProbe_ok (st : St) : resOk (oggProbe st) := by
  intro ft h
  simp only [oggProbe] at h
  repeat' split at h
  all_goals
    first
    | (simp only [Except.ok.injEq, Option.some.injEq] at h; subst h; exact ⟨by decide, by decide⟩)
    | simp at h

theorem epsBranch_ok (st : St) : resOk (epsBranch st) := by
  intro ft h
  simp only [epsBranch] at h
  repeat' split at h
  all_goals
    first
    | (simp only [Except.ok.injEq, Option.some.injEq] at h; subst h; exact ⟨by decide, by decide⟩)
    | simp at h

theorem relsOption_ok (t : List Nat) (r : FileType)
    (h : (if (endsWithB t (stringToBytes ".rels") || endsWithB t (stringToBytes ".xml")) = true then
            if firstComponent t = stringToBytes "word" then
              some (⟨"docx",
                "application/vnd.openxmlformats-officedocument.wordprocessingml.document"⟩ : FileType)
            else if firstComponent t = stringToBytes "ppt" then
              some ⟨"pptx",
                "application/vnd.openxmlformats-officedocument.presentationml.presentation"⟩
            else if firstComponent t = stringToBytes "xl" then
              some ⟨"xlsx",
                "application/vnd.openxmlformats-officedocument.spreadsheetml.sheet"⟩
            else none
          else none) = some r) :
    r.ext ∈ supportedExtensions ∧ r.mime ∈ supportedMimeTypes := by
  repeat' split at h
  all_goals
    first
    | (simp only [Option.some.injEq] at h; subst h; exact ⟨by decide, by decide⟩)
    | simp at h

theorem zipLoop_ok : ∀ (fuel : Nat) (st : St), resOk (zipLoop fuel st) := by
  intro fuel
  induction fuel with
  | zero =>
    intro st ft h
    simp only [zipLoop, Except.ok.injEq, Option.some.injEq] at h
    subst h
    exact ⟨by decide, by decide⟩
  | succ k ih =>
    intro st ft h
    simp only [zipLoop] at h
    repeat' split at h
    any_goals
      first
      | (simp only [Except.ok.injEq, Option.some.injEq] at h; subst h; exact ⟨by decide, by decide⟩)
      | simp at h
      | exact ih _ ft h
    subst h
    apply relsOption_ok <;> assumption

theorem zipBranch_ok (st : St) : resOk (zipBranch st) := by
  intro ft h
  rw [zipBranch] at h
  split at h
  · simp only [Except.ok.injEq, Option.some.injEq] at h
    subst h
    exact ⟨by decide, by decide⟩
  · exact zipLoop_ok _ _ ft h

theorem ftypBrand_ok (bm : List Nat) :
    (ftypBrand bm).ext ∈ supportedExtensions ∧ (ftypBrand bm).mime ∈ supportedMimeTypes := by
  unfold ftypBrand
  repeat' apply ftOk_ite
  all_goals exact ⟨by decide, by decide⟩

theorem ftypResult_ok (buf : List Nat) :
    (ftypResult buf).ext ∈ supportedExtensions ∧
      (ftypResult buf).mime ∈ supportedMimeTypes :=
  ftypBrand_ok _

theorem ebmlBranch_ok (st : St) : resOk (ebmlBranch st) := by
  intro ft h
  simp only [ebmlBranch] at h
  repeat' split at h
  all_goals
    first
    | (simp only [Except.ok.injEq, Option.some.injEq] at h; subst h; exact ⟨by decide, by decide⟩)
    | simp at h

theorem pngWalk_ok : ∀ (fuel : Nat) (st : St), resOk (pngWalk fuel st) := by
  intro fuel
  induction fuel with
  | zero =>
    intro st ft h
    simp only [pngWalk, Except.ok.injEq, Option.some.injEq] at h
    subst h
    exact ⟨by decide, by decide⟩
  | succ k ih =>
    intro st ft h
    simp only [pngWalk] at h
    repeat' split at h
    all_goals
      first
      | (simp only [Except.ok.injEq, Option.some.injEq] at h; subst h; exact ⟨by decide, by decide⟩)
      | simp at h
      | exact ih _ ft h

theorem pngBranch_ok (st : St) : resOk (pngBranch st) := by
  intro ft h
  simp only [pngBranch] at h
  exact pngWalk_ok _ _ ft h

theorem asfWalk_ok : ∀ (fuel : Nat) (st : St), resOk (asfWalk fuel st) := by
  intro fuel
  induction fuel with
  | zero =>
    intro st ft h
    simp only [asfWalk, Except.ok.injEq, Option.some.injEq] at h
    subst h
    exact ⟨by decide, by decide⟩
  | succ k ih =>
    intro st ft h
    simp only [asfWalk] at h
    repeat' split at h
    all_goals
      first
      | (simp only [Except.ok.injEq, Option.some.injEq] at h; subst h; exact ⟨by decide, by decide⟩)
      | simp at h
      | exact ih _ ft h

theorem asfBranch_ok (st : St) : resOk (asfBranch st) := by
  intro ft h
  simp only [asfBranch] at h
  exact asfWalk_ok _ _ ft h

theorem readTiffTag_ok (be : Bool) (st : St) (ft : FileType) (st2 : St)
    (h : readTiffTag be st = .ok (some ft, st2)) :
    ft.ext ∈ supportedExtensions ∧ ft.mime ∈ supportedMimeTypes := by
  simp only [readTiffTag] at h
  repeat' split at h
  all_goals
    first
    | (simp only [Except.ok.injEq, Prod.mk.injEq, Option.some.injEq] at h;
       obtain ⟨h1, _⟩ := h; subst h1; exact ⟨by decide, by decide⟩)
    | simp at h

theorem readTiffIFD_ok (be : Bool) :
    ∀ (n : Nat) (st : St), tagOk (readTiffIFD be n st) := by
  intro n
  induction n with
  | zero =>
    intro st
    simp only [readTiffIFD]
    exact tagOk_none
  | succ k ih =>
    intro st
    simp only [readTiffIFD]
    cases hT : readTiffTag be st with
    | error e => exact tagOk_err e
    | ok p =>
      obtain ⟨o, st1⟩ := p
      cases o with
      | some ft1 =>
        exact tagOk_det (readTiffTag_ok be st ft1 st1 hT).1 (readTiffTag_ok be st ft1 st1 hT).2
      | none => exact ih st1

theorem readTiffHeader_ok (be : Bool) (st : St) : optOk (readTiffHeader be st) := by
  unfold readTiffHeader
  cases be with
  | true =>
    refine optOk_ite ?_ (optOk_ite (optOk_det (by decide) (by decide)) optOk_none)
    refine optOk_ite (optOk_det (by decide) (by decide)) ?_
    refine optOk_ite (optOk_det (by decide) (by decide)) ?_
    simp only [reduceIte]
    cases hE : readExact (ignoreN st (readUInt32BE st.buf 4)) 2 with
    | error e => exact optOk_err e
    | ok p =>
      obtain ⟨nb, st2⟩ := p
      simp only []
      cases hI : readTiffIFD true (readUInt16BE nb 0) st2 with
      | error e => exact optOk_err e
      | ok q =>
        obtain ⟨o, st3⟩ := q
        cases o with
        | some ft1 =>
          exact optOk_det (readTiffIFD_ok true _ st2 ft1 st3 hI).1
            (readTiffIFD_ok true _ st2 ft1 st3 hI).2
        | none => exact optOk_det (by decide) (by decide)
  | false =>
    refine optOk_ite ?_ (optOk_ite (optOk_det (by decide) (by decide)) optOk_none)
    refine optOk_ite (optOk_det (by decide) (by decide)) ?_
    refine optOk_ite (optOk_det (by decide) (by decide)) ?_
    simp only []
    cases hE : readExact (ignoreN st
        (if false = true then readUInt32BE st.buf 4 else readUInt32LE st.buf 4)) 2 with
    | error e => exact optOk_err e
    | ok p =>
      obtain ⟨nb, st2⟩ := p
      simp only []
      cases hI : readTiffIFD false
          (if false = true then readUInt16BE nb 0 else readUInt16LE nb 0) st2 with
      | error e => exact optOk_err e
      | ok q =>
        obtain ⟨o, st3⟩ := q
        cases o with
        | some ft1 =>
          exact optOk_det (readTiffIFD_ok false _ st2 ft1 st3 hI).1
            (readTiffIFD_ok false _ st2 ft1 st3 hI).2
        | none => exact optOk_det (by decide) (by decide)

theorem pdfBranch_ok (st : St) : resOk (pdfBranch st) := by
  intro ft h
  simp only [pdfBranch] at h
  repeat' split at h
  all_goals
    first
    | (simp only [Except.ok.injEq, Option.some.injEq] at h; subst h; exact ⟨by decide, by decide⟩)
    | simp at h

theorem arBranch_ok (st : St) : resOk (arBranch st) := by
  intro ft h
  simp only [arBranch] at h
  repeat' split at h
  all_goals
    first
    | (simp only [Except.ok.injEq, Option.some.injEq] at h; subst h; exact ⟨by decide, by decide⟩)
    | simp at h

theorem jp2Branch_ok (st : St) : resOk (jp2Branch st) := by
  intro ft h
  simp only [jp2Branch] at h
  repeat' split at h
  all_goals
    first
    | (simp only [Except.ok.injEq, Option.some.injEq] at h; subst h; exact ⟨by decide, by decide⟩)
    | simp at h

theorem asarCase_ok (st : St) (ft : FileType) (h : asarCase st = some ft) :
    ft.ext ∈ supportedExtensions ∧ ft.mime ∈ supportedMimeTypes := by
  simp only [asarCase] at h
  repeat' split at h
  all_goals
    first
    | (simp only [Option.some.injEq] at h; subst h; exact ⟨by decide, by decide⟩)
    | simp at h

theorem stage9_ok (st : St) : resOk (stage9 st) := by
  intro ft h
  simp only [stage9] at h
  repeat' split at h
  all_goals
    first
    | (simp only [Except.ok.injEq, Option.some.injEq] at h; subst h; exact ⟨by decide, by decide⟩)
    | simp at h

theorem stage8a_ok (st : St) : resOk (stage8a st) := by
  unfold stage8a
  cases hA : asarCase st with
  | some r =>
    refine resOk_ite (resOk_det (by decide) (by decide)) ?_
    refine resOk_ite (resOk_det (by decide) (by decide)) ?_
    refine resOk_ite (resOk_det (by decide) (by decide)) ?_
    exact resOk_det (asarCase_ok st r hA).1 (asarCase_ok st r hA).2
  | none =>
    refine resOk_ite (resOk_det (by decide) (by decide)) ?_
    refine resOk_ite (resOk_det (by decide) (by decide)) ?_
    refine resOk_ite (resOk_det (by decide) (by decide)) ?_
    refine resOk_ite (resOk_det (by decide) (by decide)) ?_
    refine resOk_ite (resOk_det (by decide) (by decide)) ?_
    refine resOk_ite (resOk_det (by decide) (by decide)) ?_
    refine resOk_ite (resOk_det (by decide) (by decide)) ?_
    refine resOk_ite (resOk_det (by decide) (by decide)) ?_
    refine resOk_ite (resOk_det (by decide) (by decide)) ?_
    refine resOk_ite (resOk_det (by decide) (by decide)) ?_
    refine resOk_ite (resOk_det (by decide) (by decide)) ?_
    refine resOk_ite (resOk_det (by decide) (by decide)) ?_
    refine resOk_ite (resOk_det (by decide) (by decide)) ?_
    exact stage9_ok st

theorem stage8_ok (st : St) : resOk (stage8 st) := by
  intro ft h
  simp only [stage8] at h
  repeat' split at h
  all_goals
    first
    | (simp only [Except.ok.injEq, Option.some.injEq] at h; subst h; exact ⟨by decide, by decide⟩)
    | simp at h
    | exact stage8a_ok _ ft h

theorem stage7_ok (st : St) : resOk (stage7 st) := by
  intro ft h
  simp only [stage7] at h
  repeat' split at h
  all_goals
    first
    | (simp only [Except.ok.injEq, Option.some.injEq] at h; subst h; exact ⟨by decide, by decide⟩)
    | simp at h
    | exact stage8_ok _ ft h

theorem stage6_ok (st : St) : resOk (stage6 st) := by
  unfold stage6
  refine resOk_ite (resOk_det (by decide) (by decide)) ?_
  refine resOk_ite (resOk_det (by decide) (by decide)) ?_
  refine resOk_ite (resOk_det (by decide) (by decide)) ?_
  refine resOk_ite (asfBranch_ok st) ?_
  refine resOk_ite (resOk_det (by decide) (by decide)) ?_
  refine resOk_ite (resOk_det (by decide) (by decide)) ?_
  refine resOk_ite (resOk_det (by decide) (by decide)) ?_
  refine resOk_ite (jp2Branch_ok st) ?_
  refine resOk_ite (resOk_det (by decide) (by decide)) ?_
  refine resOk_ite (resOk_ite (resOk_det (by decide) (by decide)) resOk_none) ?_
  exact stage7_ok st

theorem stage5_ok (st : St) : resOk (stage5 st) := by
  unfold stage5
  refine resOk_ite (resOk_det (by decide) (by decide)) ?_
  refine resOk_ite (resOk_det (by decide) (by decide)) ?_
  refine resOk_ite (resOk_det (by decide) (by decide)) ?_
  refine resOk_ite (resOk_det (by decide) (by decide)) ?_
  refine resOk_ite (resOk_det (by decide) (by decide)) ?_
  refine resOk_ite (resOk_det (by decide) (by decide)) ?_
  refine resOk_ite (arBranch_ok st) ?_
  refine resOk_ite (pngBranch_ok st) ?_
  refine resOk_ite (resOk_det (by decide) (by decide)) ?_
  refine resOk_ite (resOk_det (by decide) (by decide)) ?_
  refine resOk_ite (resOk_det (by decide) (by decide)) ?_
  exact stage6_ok st

theorem stage4a_ok (st : St) : resOk (stage4a st) := by
  intro ft h
  simp only [stage4a] at h
  repeat' split at h
  all_goals
    first
    | (simp only [Except.ok.injEq, Option.some.injEq] at h; subst h; exact ⟨by decide, by decide⟩)
    | simp at h
    | exact stage5_ok _ ft h

theorem stage4_ok (st : St) : resOk (stage4 st) := by
  unfold stage4
  refine resOk_ite (resOk_det (by decide) (by decide)) ?_
  refine resOk_ite (resOk_det (by decide) (by decide)) ?_
  refine resOk_ite (resOk_det (by decide) (by decide)) ?_
  refine resOk_ite (resOk_det (by decide) (by decide)) ?_
  refine resOk_ite (resOk_det (by decide) (by decide)) ?_
  refine resOk_ite (resOk_det (by decide) (by decide)) ?_
  refine resOk_ite (resOk_det (by decide) (by decide)) ?_
  refine resOk_ite (resOk_det (by decide) (by decide)) ?_
  refine resOk_ite (resOk_det (by decide) (by decide)) ?_
  refine resOk_ite (resOk_det (by decide) (by decide)) ?_
  refine resOk_ite (resOk_det (by decide) (by decide)) ?_
  refine resOk_ite (resOk_det (by decide) (by decide)) ?_
  refine resOk_ite (resOk_det (by decide) (by decide)) ?_
  refine resOk_ite (resOk_det (by decide) (by decide)) ?_
  refine resOk_ite (resOk_ite (resOk_det (by decide) (by decide))
    (resOk_ite (resOk_det (by decide) (by decide)) (stage4a_ok st))) ?_
  exact stage4a_ok st

theorem stage3b_ok (st : St) : resOk (stage3b st) := by
  intro ft h
  simp only [stage3b] at h
  repeat' split at h
  all_goals
    first
    | (simp only [Except.ok.injEq, Option.some.injEq] at h; subst h; exact ⟨by decide, by decide⟩)
    | simp at h
    | exact stage4_ok _ ft h
    | exact ebmlBranch_ok _ ft h

theorem stage3a_ok (st : St) : resOk (stage3a st) := by
  unfold stage3a
  cases hT : readTiffHeader true st with
  | error e => exact resOk_ite (resOk_err e) (stage3b_ok st)
  | ok o =>
    cases o with
    | none => exact resOk_ite (stage3b_ok st) (stage3b_ok st)
    | some ft =>
      exact resOk_ite
        (resOk_det (readTiffHeader_ok true st ft hT).1 (readTiffHeader_ok true st ft hT).2)
        (stage3b_ok st)

theorem stage3_ok (st : St) : resOk (stage3 st) := by
  unfold stage3
  cases hT : readTiffHeader false st with
  | error e => exact resOk_ite (resOk_err e) (stage3a_ok st)
  | ok o =>
    cases o with
    | none => exact resOk_ite (stage3a_ok st) (stage3a_ok st)
    | some ft =>
      exact resOk_ite
        (resOk_det (readTiffHeader_ok false st ft hT).1 (readTiffHeader_ok false st ft hT).2)
        (stage3a_ok st)

theorem stage2_ok (st : St) : resOk (stage2 st) := by
  unfold stage2
  refine resOk_ite (zipBranch_ok st) ?_
  refine resOk_ite (oggProbe_ok st) ?_
  refine resOk_ite (resOk_det (by decide) (by decide)) ?_
  refine resOk_ite (resOk_det (ftypResult_ok st.buf).1 (ftypResult_ok st.buf).2) ?_
  refine resOk_ite (resOk_det (by decide) (by decide)) ?_
  refine resOk_ite (resOk_det (by decide) (by decide)) ?_
  refine resOk_ite (resOk_det (by decide) (by decide)) ?_
  refine resOk_ite (resOk_det (by decide) (by decide)) ?_
  refine resOk_ite (resOk_det (by decide) (by decide)) ?_
  refine resOk_ite (resOk_det (by decide) (by decide)) ?_
  refine resOk_ite (resOk_det (by decide) (by decide)) ?_
  refine resOk_ite (resOk_det (by decide) (by decide)) ?_
  refine resOk_ite (resOk_det (by decide) (by decide)) ?_
  refine resOk_ite (pdfBranch_ok st) ?_
  refine resOk_ite (resOk_det (by decide) (by decide)) ?_
  exact stage3_ok st

theorem stage1_ok (st : St) : resOk (stage1 st) := by
  unfold stage1
  refine resOk_ite (resOk_det (by decide) (by decide)) ?_
  refine resOk_ite (resOk_det (by decide) (by decide)) ?_
  refine resOk_ite (resOk_det (by decide) (by decide)) ?_
  refine resOk_ite (resOk_det (by decide) (by decide)) ?_
  refine resOk_ite (resOk_det (by decide) (by decide)) ?_
  refine resOk_ite (resOk_det (by decide) (by decide)) ?_
  refine resOk_ite (resOk_det (by decide) (by decide)) ?_
  refine resOk_ite (resOk_det (by decide) (by decide)) ?_
  exact stage2_ok st

theorem id3Case_ok (r : St → PR) (hr : ∀ st, resOk (r st)) (st1 : St) :
    resOk (id3Case r st1) := by
  unfold id3Case
  cases readExact st1 4 with
  | error e => exact resOk_err e
  | ok p =>
    obtain ⟨b4, st2⟩ := p
    exact resOk_ite (resOk_det (by decide) (by decide)) (hr _)

theorem parseBody_ok (r : St → PR) (hr : ∀ st, resOk (r st)) (st : St) :
    resOk (parseBody r st) := by
  unfold parseBody
  refine resOk_ite (resOk_det (by decide) (by decide)) ?_
  refine resOk_ite (resOk_det (by decide) (by decide)) ?_
  refine resOk_ite (resOk_det (by decide) (by decide)) ?_
  refine resOk_ite (resOk_det (by decide) (by decide)) ?_
  refine resOk_ite (epsBranch_ok _) ?_
  refine resOk_ite (resOk_det (by decide) (by decide)) ?_
  refine resOk_ite (hr _) ?_
  refine resOk_ite (resOk_det (by decide) (by decide)) ?_
  refine resOk_ite (resOk_det (by decide) (by decide)) ?_
  refine resOk_ite (resOk_det (by decide) (by decide)) ?_
  refine resOk_ite (resOk_det (by decide) (by decide)) ?_
  refine resOk_ite (resOk_det (by decide) (by decide)) ?_
  refine resOk_ite (id3Case_ok r hr _) ?_
  exact stage1_ok _

theorem parseF_ok : ∀ (fuel : Nat) (st : St), resOk (parseF fuel st) := by
  intro fuel
  induction fuel with
  | zero =>
    intro st
    simp only [parseF]
    exact resOk_none
  | succ k ih => intro st; exact parseBody_ok _ ih st

/-- C5: every detection result of the dispatcher lies in the exported
catalogs. -/
theorem c5_catalog (input : List Nat) (ft : FileType)
    (h : fileTypeFromTokenizer (fromBuffer input) = .ok (some ft)) :
    ft.ext ∈ supportedExtensions ∧ ft.mime ∈ supportedMimeTypes :=
  parseF_ok _ _ ft h

/-- Witness for C5 at a concrete input (the BMP signature). -/
theorem c5_witness :
    (⟨"bmp", "image/bmp"⟩ : FileType).ext ∈ supportedExtensions ∧
    (⟨"bmp", "image/bmp"⟩ : FileType).mime ∈ supportedMimeTypes :=
  c5_catalog [0x42, 0x4D] ⟨"bmp", "image/bmp"⟩ rfl


/-- fileTypeFromBuffer returns the unknown result on inputs of length at most
one and otherwise delegates to the tokenizer-based detection. -/
theorem c9_fileTypeFromBuffer (input : List Nat) :
    (input.length ≤ 1 → fileTypeFromBuffer input = .ok none) ∧
    (1 < input.length → fileTypeFromBuffer input = fileTypeFromTokenizer (fromBuffer input)) := by
  constructor
  · intro h
    rw [fileTypeFromBuffer, if_neg (by omega)]
  · intro h
    rw [fileTypeFromBuffer, if_pos h]

/-- Witness for C9: a one-byte input and the empty input give the unknown
result, and a two-byte input delegates. -/
theorem c9_witness :
    fileTypeFromBuffer [0x42] = .ok none ∧ fileTypeFromBuffer [] = .ok none ∧
    fileTypeFromBuffer [0x42, 0x4D] = fileTypeFromTokenizer (fromBuffer [0x42, 0x4D]) :=
  ⟨(c9_fileTypeFromBuffer [0x42]).1 (by decide), (c9_fileTypeFromBuffer []).1 (by decide),
    (c9_fileTypeFromBuffer [0x42, 0x4D]).2 (by decide)⟩

/-! ## Claim C10: the file entry point -/

/-- fileTypeFromFile invokes its opener — the undefined value — before any
detection can happen, so every call fails with a TypeError and no detection
result is ever produced. -/
theorem c10_fileTypeFromFile (path : String) :
    fileTypeFromFile path = .error .typeError := rfl

/-! ## Claim C4, counterexample: prefix stability fails -/

/-- The input 00 00 00 01 00 triggers the ico probe (a fixed-offset signature
check), but appending bytes that place the ASCII letters WEBP at offset 8
makes the earlier WEBP probe match first: detection on the extension differs
from detection on the original. -/
theorem c4_counterexample :
    parseRun (fromBuffer [0x00, 0x00, 0x01, 0x00]) = .ok (some ⟨"ico", "image/x-icon"⟩) ∧
    parseRun (fromBuffer ([0x00, 0x00, 0x01, 0x00] ++
        [0x00, 0x00, 0x00, 0x00, 0x57, 0x45, 0x42, 0x50])) = .ok (some ⟨"webp", "image/webp"⟩) ∧
    parseRun (fromBuffer ([0x00, 0x00, 0x01, 0x00] ++
        [0x00, 0x00, 0x00, 0x00, 0x57, 0x45, 0x42, 0x50])) ≠
      parseRun (fromBuffer [0x00, 0x00, 0x01, 0x00]) := by
  refine ⟨rfl, rfl, ?_⟩
  decide

/-! ## Claim C7, counterexample: the PNG branch is not always reached -/

/-- On an input carrying the PNG signature followed by the ASCII letters WEBP,
the dispatcher answers webp from the earlier WEBP probe, while the chunk walk
the claim describes would raise EndOfStream; the claimed walk therefore does
not describe detection on every input that begins with the PNG magic. -/
theorem c7_counterexample :
    parseRun (fromBuffer ([0x89, 0x50, 0x4E, 0x47, 0x0D, 0x0A, 0x1A, 0x0A] ++
        [0x57, 0x45, 0x42, 0x50])) = .ok (some ⟨"webp", "image/webp"⟩) ∧
    pngClaimRun ([0x89, 0x50, 0x4E, 0x47, 0x0D, 0x0A, 0x1A, 0x0A] ++
        [0x57, 0x45, 0x42, 0x50]) = .error .endOfStream ∧
    parseRun (fromBuffer ([0x89, 0x50, 0x4E, 0x47, 0x0D, 0x0A, 0x1A, 0x0A] ++
        [0x57, 0x45, 0x42, 0x50])) ≠
      pngClaimRun ([0x89, 0x50, 0x4E, 0x47, 0x0D, 0x0A, 0x1A, 0x0A] ++
        [0x57, 0x45, 0x42, 0x50]) := by
  refine ⟨rfl, rfl, ?_⟩
  decide

/-! ## Claim C7, amendment: reaching the PNG walk -/

theorem chk_head_false {buf : List Nat} {h0 : Nat} {t : List Nat} {off : Nat}
    (h : byteAt buf off ≠ some h0) : _check buf (h0 :: t) off none = false := by
  simp only [_check, _checkAux, Nat.zero_add]
  cases hb : byteAt buf off with
  | none => simp
  | some b =>
    have hne : h0 ≠ b := fun hh => h (by rw [hb, hh])
    simp [hne]

theorem _checkAux_of_drop (buf : List Nat) :
    ∀ (hdr : List Nat) (k : Nat), (buf.drop k).take hdr.length = hdr →
      _checkAux buf 0 none hdr k = true := by
  intro hdr
  induction hdr with
  | nil => intro k _; rfl
  | cons h t ih =>
    intro k hk
    have hhead : byteAt buf k = some h := by
      rw [byteAt_eq_getElem?]
      have h0 := congrArg (fun l => l[0]?) hk
      simpa [List.getElem?_take, List.getElem?_drop] using h0
    have htail : (buf.drop (k + 1)).take t.length = t := by
      have h1 := congrArg (List.drop 1) hk
      simpa [List.drop_take, List.drop_drop, Nat.add_comm] using h1
    simp only [_checkAux, Nat.add_zero, hhead, beq_self_eq_true, Bool.true_and]
    exact ih (k + 1) htail

theorem _check_of_take {buf hdr : List Nat} (h : buf.take hdr.length = hdr) :
    _check buf hdr 0 none = true :=
  _checkAux_of_drop buf hdr 0 (by simpa using h)

theorem byteAt_of_take {l pre : List Nat} {n i : Nat} (h : l.take n = pre) (hi : i < n) :
    byteAt l i = byteAt pre i := by
  rw [byteAt_eq_getElem?, byteAt_eq_getElem?, ← h, List.getElem?_take, if_pos hi]

theorem readExact_eq (st : St) (n : Nat) :
    readExact st n = if min (rem st) n < n then .error .endOfStream
      else .ok (peekBytes st n, ⟨st.data, st.pos + n, st.buf⟩) := by
  rw [readExact, peekExact]
  by_cases h : min (rem st) n < n
  · rw [if_pos h, if_pos h]
  · rw [if_neg h, if_neg h]

theorem ignoreN_mk (d : List Nat) (p n : Nat) (b : List Nat) :
    ignoreN ⟨d, p, b⟩ n = ⟨d, if d.length - p < n then d.length else p + n, b⟩ := by
  rw [ignoreN]
  simp only [size]
  split_ifs with h
  · rfl
  · rfl

theorem readExact_buf (d : List Nat) (p n : Nat) (b b' : List Nat) :
    (readExact ⟨d, p, b⟩ n = .error .endOfStream ∧
      readExact ⟨d, p, b'⟩ n = .error .endOfStream) ∨
    (readExact ⟨d, p, b⟩ n = .ok (peekBytes (⟨d, p, b⟩ : St) n, ⟨d, p + n, b⟩) ∧
      readExact ⟨d, p, b'⟩ n = .ok (peekBytes (⟨d, p, b⟩ : St) n, ⟨d, p + n, b'⟩)) := by
  rw [readExact_eq, readExact_eq]
  simp only [rem, size, peekBytes]
  by_cases h : min (d.length - p) n < n
  · left
    rw [if_pos h, if_pos h]
    exact ⟨rfl, rfl⟩
  · right
    rw [if_neg h, if_neg h]
    exact ⟨rfl, rfl⟩

theorem pngWalk_buf : ∀ (fuel : Nat) (d : List Nat) (p : Nat) (b b' : List Nat),
    pngWalk fuel ⟨d, p, b⟩ = pngWalk fuel ⟨d, p, b'⟩ := by
  intro fuel
  induction fuel with
  | zero => intro d p b b'; rfl
  | succ k ih =>
    intro d p b b'
    simp only [pngWalk]
    rcases readExact_buf d p 4 b b' with ⟨h1, h1'⟩ | ⟨h1, h1'⟩
    · rw [h1, h1']
    · rw [h1, h1']
      simp only []
      rcases readExact_buf d (p + 4) 4 b b' with ⟨h2, h2'⟩ | ⟨h2, h2'⟩
      · rw [h2, h2']
      · rw [h2, h2']
        simp only [ignoreN_mk, size,
          show ∀ q, pngWalk k ⟨d, q, b⟩ = pngWalk k ⟨d, q, b'⟩ from fun q => ih d q b b']

theorem pngWalk_eq_claim : ∀ (fuel : Nat) (st : St),
    pngWalk fuel st = pngClaimWalk fuel st := by
  intro fuel
  induction fuel with
  | zero => intro st; rfl
  | succ k ih =>
    intro st
    simp only [pngWalk, pngClaimWalk, ih]


/-- Amended C7: on every input that begins with the PNG magic and whose bytes
8..11 are not the ASCII letters WEBP (the only earlier probe that can fire),
the dispatcher reaches the PNG branch and computes exactly the chunk walk the
claim describes. -/
theorem c7_amended (input : List Nat)
    (h8 : input.take 8 = [0x89, 0x50, 0x4E, 0x47, 0x0D, 0x0A, 0x1A, 0x0A])
    (hnw : (input.drop 8).take 4 ≠ [0x57, 0x45, 0x42, 0x50]) :
    fileTypeFromTokenizer (fromBuffer input) = pngClaimRun input := by
  have hlen : 8 ≤ input.length := by
    have h := congrArg List.length h8
    rw [List.length_take] at h
    simp at h
    omega
  simp only [fileTypeFromTokenizer, parseRun, parseF, parseBody, fromBuffer]
  rw [show peekBytes (⟨input, 0, []⟩ : St) 12 = input.take (min input.length 12) from by
    simp [peekBytes, rem, size]]
  set W := writeBytes (List.replicate minimumBytes 0) (input.take (min input.length 12)) with hWdef
  have hplen : (input.take (min input.length 12)).length = min input.length 12 := by
    rw [List.length_take]
    omega
  have hTake8 : W.take 8 = [0x89, 0x50, 0x4E, 0x47, 0x0D, 0x0A, 0x1A, 0x0A] := by
    rw [hWdef, writeBytes, List.take_append_of_le_length (by rw [hplen]; omega), List.take_take,
      show min 8 (min input.length 12) = 8 from by omega]
    exact h8
  have hAt : ∀ i, i < 8 →
      byteAt W i = byteAt [0x89, 0x50, 0x4E, 0x47, 0x0D, 0x0A, 0x1A, 0x0A] i :=
    fun i hi => byteAt_of_take hTake8 hi
  have hb0 : byteAt W 0 = some 0x89 := by rw [hAt 0 (by omega)]; rfl
  have hb2 : byteAt W 2 = some 0x4E := by rw [hAt 2 (by omega)]; rfl
  have hb4 : byteAt W 4 = some 0x0D := by rw [hAt 4 (by omega)]; rfl
  have hB0D : byteAtD W 0 0 = 0x89 := by unfold byteAtD; rw [hb0]
  have hswf : (decide (byteAtD W 0 0 = 0x43) || decide (byteAtD W 0 0 = 0x46)) = false := by
    rw [hB0D]; rfl
  have q01 : chk (⟨input, 0, W⟩ : St) [0x42, 0x4D] 0 = false :=
    chk_head_false (by rw [hb0]; decide)
  have q02 : chk (⟨input, 0, W⟩ : St) [0x0B, 0x77] 0 = false :=
    chk_head_false (by rw [hb0]; decide)
  have q03 : chk (⟨input, 0, W⟩ : St) [0x78, 0x01] 0 = false :=
    chk_head_false (by rw [hb0]; decide)
  have q04 : chk (⟨input, 0, W⟩ : St) [0x4D, 0x5A] 0 = false :=
    chk_head_false (by rw [hb0]; decide)
  have q05 : chk (⟨input, 0, W⟩ : St) [0x25, 0x21] 0 = false :=
    chk_head_false (by rw [hb0]; decide)
  have q06 : chk (⟨input, 0, W⟩ : St) [0x1F, 0xA0] 0 = false :=
    chk_head_false (by rw [hb0]; decide)
  have q07 : chk (⟨input, 0, W⟩ : St) [0x1F, 0x9D] 0 = false :=
    chk_head_false (by rw [hb0]; decide)
  have q08 : chk (⟨input, 0, W⟩ : St) [0xEF, 0xBB, 0xBF] 0 = false :=
    chk_head_false (by rw [hb0]; decide)
  have q09 : chk (⟨input, 0, W⟩ : St) [0x47, 0x49, 0x46] 0 = false :=
    chk_head_false (by rw [hb0]; decide)
  have q10 : chk (⟨input, 0, W⟩ : St) [0xFF, 0xD8, 0xFF] 0 = false :=
    chk_head_false (by rw [hb0]; decide)
  have q11 : chk (⟨input, 0, W⟩ : St) [0x49, 0x49, 0xBC] 0 = false :=
    chk_head_false (by rw [hb0]; decide)
  have q12 : chk (⟨input, 0, W⟩ : St) [0x1F, 0x8B, 0x8] 0 = false :=
    chk_head_false (by rw [hb0]; decide)
  have q13 : chk (⟨input, 0, W⟩ : St) [0x42, 0x5A, 0x68] 0 = false :=
    chk_head_false (by rw [hb0]; decide)
  have q14 : chk (⟨input, 0, W⟩ : St) (stringToBytes "ID3") 0 = false :=
    chk_head_false (by rw [hb0]; decide)
  have q15 : chk (⟨input, 0, W⟩ : St) (stringToBytes "MP+") 0 = false :=
    chk_head_false (by rw [hb0]; decide)
  have q17 : chk (⟨input, 0, W⟩ : St) (stringToBytes "FLIF") 0 = false :=
    chk_head_false (by rw [hb0]; decide)
  have q18 : chk (⟨input, 0, W⟩ : St) (stringToBytes "8BPS") 0 = false :=
    chk_head_false (by rw [hb0]; decide)
  have q19 : chk (⟨input, 0, W⟩ : St) (stringToBytes "MPCK") 0 = false :=
    chk_head_false (by rw [hb0]; decide)
  have q20 : chk (⟨input, 0, W⟩ : St) (stringToBytes "FORM") 0 = false :=
    chk_head_false (by rw [hb0]; decide)
  have q21 : chk (⟨input, 0, W⟩ : St) (stringToBytes "icns") 0 = false :=
    chk_head_false (by rw [hb0]; decide)
  have q22 : chk (⟨input, 0, W⟩ : St) [0x50, 0x4B, 0x03, 0x04] 0 = false :=
    chk_head_false (by rw [hb0]; decide)
  have q23 : chk (⟨input, 0, W⟩ : St) (stringToBytes "OggS") 0 = false :=
    chk_head_false (by rw [hb0]; decide)
  have q24 : chk (⟨input, 0, W⟩ : St) [0x50, 0x4B] 0 = false :=
    chk_head_false (by rw [hb0]; decide)
  have q26 : chk (⟨input, 0, W⟩ : St) (stringToBytes "MThd") 0 = false :=
    chk_head_false (by rw [hb0]; decide)
  have q27 : chk (⟨input, 0, W⟩ : St) (stringToBytes "wOFF") 0 = false :=
    chk_head_false (by rw [hb0]; decide)
  have q28 : chk (⟨input, 0, W⟩ : St) (stringToBytes "wOF2") 0 = false :=
    chk_head_false (by rw [hb0]; decide)
  have q29 : chk (⟨input, 0, W⟩ : St) [0xD4, 0xC3, 0xB2, 0xA1] 0 = false :=
    chk_head_false (by rw [hb0]; decide)
  have q30 : chk (⟨input, 0, W⟩ : St) [0xA1, 0xB2, 0xC3, 0xD4] 0 = false :=
    chk_head_false (by rw [hb0]; decide)
  have q31 : chk (⟨input, 0, W⟩ : St) (stringToBytes "DSD ") 0 = false :=
    chk_head_false (by rw [hb0]; decide)
  have q32 : chk (⟨input, 0, W⟩ : St) (stringToBytes "LZIP") 0 = false :=
    chk_head_false (by rw [hb0]; decide)
  have q33 : chk (⟨input, 0, W⟩ : St) (stringToBytes "fLaC") 0 = false :=
    chk_head_false (by rw [hb0]; decide)
  have q34 : chk (⟨input, 0, W⟩ : St) [0x42, 0x50, 0x47, 0xFB] 0 = false :=
    chk_head_false (by rw [hb0]; decide)
  have q35 : chk (⟨input, 0, W⟩ : St) (stringToBytes "wvpk") 0 = false :=
    chk_head_false (by rw [hb0]; decide)
  have q36 : chk (⟨input, 0, W⟩ : St) (stringToBytes "%PDF") 0 = false :=
    chk_head_false (by rw [hb0]; decide)
  have q37 : chk (⟨input, 0, W⟩ : St) [0x00, 0x61, 0x73, 0x6D] 0 = false :=
    chk_head_false (by rw [hb0]; decide)
  have q38 : chk (⟨input, 0, W⟩ : St) [0x49, 0x49] 0 = false :=
    chk_head_false (by rw [hb0]; decide)
  have q39 : chk (⟨input, 0, W⟩ : St) [0x4D, 0x4D] 0 = false :=
    chk_head_false (by rw [hb0]; decide)
  have q40 : chk (⟨input, 0, W⟩ : St) (stringToBytes "MAC ") 0 = false :=
    chk_head_false (by rw [hb0]; decide)
  have q41 : chk (⟨input, 0, W⟩ : St) [0x1A, 0x45, 0xDF, 0xA3] 0 = false :=
    chk_head_false (by rw [hb0]; decide)
  have q42 : chk (⟨input, 0, W⟩ : St) [0x52, 0x49, 0x46, 0x46] 0 = false :=
    chk_head_false (by rw [hb0]; decide)
  have q43 : chk (⟨input, 0, W⟩ : St) (stringToBytes "SQLi") 0 = false :=
    chk_head_false (by rw [hb0]; decide)
  have q44 : chk (⟨input, 0, W⟩ : St) [0x4E, 0x45, 0x53, 0x1A] 0 = false :=
    chk_head_false (by rw [hb0]; decide)
  have q45 : chk (⟨input, 0, W⟩ : St) (stringToBytes "Cr24") 0 = false :=
    chk_head_false (by rw [hb0]; decide)
  have q46 : chk (⟨input, 0, W⟩ : St) (stringToBytes "MSCF") 0 = false :=
    chk_head_false (by rw [hb0]; decide)
  have q47 : chk (⟨input, 0, W⟩ : St) (stringToBytes "ISc(") 0 = false :=
    chk_head_false (by rw [hb0]; decide)
  have q48 : chk (⟨input, 0, W⟩ : St) [0xED, 0xAB, 0xEE, 0xDB] 0 = false :=
    chk_head_false (by rw [hb0]; decide)
  have q49 : chk (⟨input, 0, W⟩ : St) [0xC5, 0xD0, 0xD3, 0xC6] 0 = false :=
    chk_head_false (by rw [hb0]; decide)
  have q50 : chk (⟨input, 0, W⟩ : St) [0x28, 0xB5, 0x2F, 0xFD] 0 = false :=
    chk_head_false (by rw [hb0]; decide)
  have q51 : chk (⟨input, 0, W⟩ : St) [0x7F, 0x45, 0x4C, 0x46] 0 = false :=
    chk_head_false (by rw [hb0]; decide)
  have q52 : chk (⟨input, 0, W⟩ : St) [0x4F, 0x54, 0x54, 0x4F, 0x00] 0 = false :=
    chk_head_false (by rw [hb0]; decide)
  have q53 : chk (⟨input, 0, W⟩ : St) (stringToBytes "#!AMR") 0 = false :=
    chk_head_false (by rw [hb0]; decide)
  have q54 : chk (⟨input, 0, W⟩ : St) [0x7B, 0x5C, 0x72, 0x74, 0x66] 0 = false :=
    chk_head_false (by rw [hb0]; decide)
  have q55 : chk (⟨input, 0, W⟩ : St) [0x46, 0x4C, 0x56, 0x01] 0 = false :=
    chk_head_false (by rw [hb0]; decide)
  have q56 : chk (⟨input, 0, W⟩ : St) (stringToBytes "IMPM") 0 = false :=
    chk_head_false (by rw [hb0]; decide)
  have q69 : chk (⟨input, 0, W⟩ : St) [0x00, 0x00, 0x01, 0xBA] 0 = false :=
    chk_head_false (by rw [hb0]; decide)
  have q70 : chk (⟨input, 0, W⟩ : St) (stringToBytes "ITSF") 0 = false :=
    chk_head_false (by rw [hb0]; decide)
  have q71 : chk (⟨input, 0, W⟩ : St) [0xFD, 0x37, 0x7A, 0x58, 0x5A, 0x00] 0 = false :=
    chk_head_false (by rw [hb0]; decide)
  have q72 : chk (⟨input, 0, W⟩ : St) (stringToBytes "<?xml ") 0 = false :=
    chk_head_false (by rw [hb0]; decide)
  have q73 : chk (⟨input, 0, W⟩ : St) [0x37, 0x7A, 0xBC, 0xAF, 0x27, 0x1C] 0 = false :=
    chk_head_false (by rw [hb0]; decide)
  have q74 : chk (⟨input, 0, W⟩ : St) [0x52, 0x61, 0x72, 0x21, 0x1A, 0x07] 0 = false :=
    chk_head_false (by rw [hb0]; decide)
  have q75 : chk (⟨input, 0, W⟩ : St) (stringToBytes "solid ") 0 = false :=
    chk_head_false (by rw [hb0]; decide)
  have q76 : chk (⟨input, 0, W⟩ : St) (stringToBytes "BLENDER") 0 = false :=
    chk_head_false (by rw [hb0]; decide)
  have q77 : chk (⟨input, 0, W⟩ : St) (stringToBytes "!<arch>") 0 = false :=
    chk_head_false (by rw [hb0]; decide)
  have q57 : chk (⟨input, 0, W⟩ : St) (stringToBytes "-lh0-") 2 = false :=
    chk_head_false (by rw [hb2]; decide)
  have q58 : chk (⟨input, 0, W⟩ : St) (stringToBytes "-lh1-") 2 = false :=
    chk_head_false (by rw [hb2]; decide)
  have q59 : chk (⟨input, 0, W⟩ : St) (stringToBytes "-lh2-") 2 = false :=
    chk_head_false (by rw [hb2]; decide)
  have q60 : chk (⟨input, 0, W⟩ : St) (stringToBytes "-lh3-") 2 = false :=
    chk_head_false (by rw [hb2]; decide)
  have q61 : chk (⟨input, 0, W⟩ : St) (stringToBytes "-lh4-") 2 = false :=
    chk_head_false (by rw [hb2]; decide)
  have q62 : chk (⟨input, 0, W⟩ : St) (stringToBytes "-lh5-") 2 = false :=
    chk_head_false (by rw [hb2]; decide)
  have q63 : chk (⟨input, 0, W⟩ : St) (stringToBytes "-lh6-") 2 = false :=
    chk_head_false (by rw [hb2]; decide)
  have q64 : chk (⟨input, 0, W⟩ : St) (stringToBytes "-lh7-") 2 = false :=
    chk_head_false (by rw [hb2]; decide)
  have q65 : chk (⟨input, 0, W⟩ : St) (stringToBytes "-lzs-") 2 = false :=
    chk_head_false (by rw [hb2]; decide)
  have q66 : chk (⟨input, 0, W⟩ : St) (stringToBytes "-lz4-") 2 = false :=
    chk_head_false (by rw [hb2]; decide)
  have q67 : chk (⟨input, 0, W⟩ : St) (stringToBytes "-lz5-") 2 = false :=
    chk_head_false (by rw [hb2]; decide)
  have q68 : chk (⟨input, 0, W⟩ : St) (stringToBytes "-lhd-") 2 = false :=
    chk_head_false (by rw [hb2]; decide)
  have q25 : chk (⟨input, 0, W⟩ : St) (stringToBytes "ftyp") 4 = false :=
    chk_head_false (by rw [hb4]; decide)
  have pPng : chk (⟨input, 0, W⟩ : St) [0x89, 0x50, 0x4E, 0x47, 0x0D, 0x0A, 0x1A, 0x0A] 0 =
      true :=
    _check_of_take (by simpa using hTake8)
  have qW : chk (⟨input, 0, W⟩ : St) (stringToBytes "WEBP") 8 = false := by
    cases hB : chk (⟨input, 0, W⟩ : St) (stringToBytes "WEBP") 8 with
    | false => rfl
    | true =>
      exfalso
      have hchar := (_checkAux_none_iff W 8 (stringToBytes "WEBP") 0).mp hB
      by_cases h12 : 12 ≤ input.length
      · apply hnw
        have hWin : ∀ j, j < 4 → byteAt W (8 + j) = input[8 + j]? := by
          intro j hj
          rw [hWdef, writeBytes, byteAt_eq_getElem?,
            List.getElem?_append_left (by rw [hplen]; omega),
            List.getElem?_take, if_pos (by omega)]
        obtain ⟨b0, ha0, he0⟩ := hchar 0 (by decide)
        obtain ⟨b1, ha1, he1⟩ := hchar 1 (by decide)
        obtain ⟨b2, ha2, he2⟩ := hchar 2 (by decide)
        obtain ⟨b3, ha3, he3⟩ := hchar 3 (by decide)
        have e0 : byteAt W 8 = some 0x57 := by
          have h1 : byteAt W 8 = some b0 := ha0
          have h2 : (0x57 : Nat) = b0 := he0
          rw [h1, ← h2]
        have e1 : byteAt W 9 = some 0x45 := by
          have h1 : byteAt W 9 = some b1 := ha1
          have h2 : (0x45 : Nat) = b1 := he1
          rw [h1, ← h2]
        have e2 : byteAt W 10 = some 0x42 := by
          have h1 : byteAt W 10 = some b2 := ha2
          have h2 : (0x42 : Nat) = b2 := he2
          rw [h1, ← h2]
        have e3 : byteAt W 11 = some 0x50 := by
          have h1 : byteAt W 11 = some b3 := ha3
          have h2 : (0x50 : Nat) = b3 := he3
          rw [h1, ← h2]
        have hv0 : input[8]? = some 0x57 := (show byteAt W 8 = input[8]? from
          hWin 0 (by omega)).symm.trans e0
        have hv1 : input[9]? = some 0x45 := (show byteAt W 9 = input[9]? from
          hWin 1 (by omega)).symm.trans e1
        have hv2 : input[10]? = some 0x42 := (show byteAt W 10 = input[10]? from
          hWin 2 (by omega)).symm.trans e2
        have hv3 : input[11]? = some 0x50 := (show byteAt W 11 = input[11]? from
          hWin 3 (by omega)).symm.trans e3
        apply List.ext_getElem?
        intro i
        rcases i with _ | _ | _ | _ | i
        · simpa [List.getElem?_take, List.getElem?_drop] using hv0
        · simpa [List.getElem?_take, List.getElem?_drop] using hv1
        · simpa [List.getElem?_take, List.getElem?_drop] using hv2
        · simpa [List.getElem?_take, List.getElem?_drop] using hv3
        · rw [List.getElem?_eq_none (by rw [List.length_take, List.length_drop]; omega),
            List.getElem?_eq_none (Nat.le_add_left 4 i)]
      · obtain ⟨b3, ha3, he3⟩ := hchar 3 (by decide)
        have e3 : byteAt W 11 = some 0x50 := by
          have h1 : byteAt W 11 = some b3 := ha3
          have h2 : (0x50 : Nat) = b3 := he3
          rw [h1, ← h2]
        have hz : byteAt W 11 = some 0 := by
          rw [hWdef, writeBytes, byteAt_eq_getElem?,
            List.getElem?_append_right (by rw [hplen]; omega),
            List.getElem?_drop,
            show (input.take (min input.length 12)).length +
              (11 - (input.take (min input.length 12)).length) = 11 from by
                rw [hplen]; omega,
            List.getElem?_replicate, if_pos (by decide : (11 : Nat) < minimumBytes)]
        rw [e3] at hz
        exact absurd hz (by decide)
  simp only [stage1, stage2, stage3, stage3a, stage3b, stage4, stage4a, stage5,
    q01, q02, q03, q04, q05, q06, q07, q08, q09, q10, q11, q12, q13, q14, q15, q17, q18, q19, q20, q21, q22, q23, q24, q25, q26, q27, q28, q29, q30, q31, q32, q33, q34, q35, q36, q37, q38, q39, q40, q41, q42, q43, q44, q45, q46, q47, q48, q49, q50, q51, q52, q53, q54, q55, q56, q57, q58, q59, q60, q61, q62, q63, q64, q65, q66, q67, q68, q69, q70, q71, q72, q73, q74, q75, q76, q77,
    hswf, qW, pPng, Bool.false_and, Bool.false_or, Bool.or_self, reduceIte]
  simp only [pngBranch, pngClaimRun, fromBuffer]
  have hi1 : ignoreN (⟨input, 0, W⟩ : St) 8 = ⟨input, 8, W⟩ := by
    rw [ignoreN_mk, if_neg (by omega)]
  have hi2 : ignoreN (⟨input, 0, []⟩ : St) 8 = ⟨input, 8, []⟩ := by
    rw [ignoreN_mk, if_neg (by omega)]
  rw [hi1, hi2, show rem (⟨input, 8, W⟩ : St) = rem (⟨input, 8, []⟩ : St) from rfl,
    pngWalk_buf (rem (⟨input, 8, []⟩ : St) + 1) input 8 W []]
  exact pngWalk_eq_claim _ _

/-- Witness for the amended C7 at a PNG-magic input carrying an acTL chunk. -/
theorem c7_amended_witness :
    fileTypeFromTokenizer (fromBuffer ([0x89, 0x50, 0x4E, 0x47, 0x0D, 0x0A, 0x1A, 0x0A] ++
        [0x00, 0x00, 0x00, 0x00, 0x61, 0x63, 0x54, 0x4C])) =
      pngClaimRun ([0x89, 0x50, 0x4E, 0x47, 0x0D, 0x0A, 0x1A, 0x0A] ++
        [0x00, 0x00, 0x00, 0x00, 0x61, 0x63, 0x54, 0x4C]) :=
  c7_amended ([0x89, 0x50, 0x4E, 0x47, 0x0D, 0x0A, 0x1A, 0x0A] ++
      [0x00, 0x00, 0x00, 0x00, 0x61, 0x63, 0x54, 0x4C]) (by decide) (by decide)

/-! ## Claim C4, amendment: restricted prefix stability.

No container walk and no stage-9 probe can produce the MPEG-TS detection, and
every guard on the way to the MPEG-TS probes reads only the working buffer,
which is a function of the first 256 input bytes. -/

theorem noMts_ite {c : Prop} [Decidable c] {a b : PR} (ha : noMts a) (hb : noMts b) :
    noMts (if c then a else b) := by
  rcases Classical.em c with hc | hc
  · rwa [if_pos hc]
  · rwa [if_neg hc]

theorem noMts_det {ft : FileType} (h : ft ≠ mtsFT) : noMts (.ok (some ft)) :=
  fun hh => h (Option.some.inj (Except.ok.inj hh))

theorem noMts_none : noMts (.ok none) :=
  fun hh => Option.noConfusion (Except.ok.inj hh)

theorem noMts_err (e : JsErr) : noMts (.error e) :=
  fun hh => Except.noConfusion hh

theorem oggProbe_noMts (st : St) : noMts (oggProbe st) := by
  intro h
  simp only [oggProbe] at h
  repeat' split at h
  all_goals first
    | exact absurd h (by decide)
    | simp at h

theorem epsBranch_noMts (st : St) : noMts (epsBranch st) := by
  intro h
  simp only [epsBranch] at h
  repeat' split at h
  all_goals first
    | exact absurd h (by decide)
    | simp at h

theorem pdfBranch_noMts (st : St) : noMts (pdfBranch st) := by
  intro h
  simp only [pdfBranch] at h
  repeat' split at h
  all_goals first
    | exact absurd h (by decide)
    | simp at h

theorem arBranch_noMts (st : St) : noMts (arBranch st) := by
  intro h
  simp only [arBranch] at h
  repeat' split at h
  all_goals first
    | exact absurd h (by decide)
    | simp at h

theorem jp2Branch_noMts (st : St) : noMts (jp2Branch st) := by
  intro h
  simp only [jp2Branch] at h
  repeat' split at h
  all_goals first
    | exact absurd h (by decide)
    | simp at h

theorem ebmlBranch_noMts (st : St) : noMts (ebmlBranch st) := by
  intro h
  simp only [ebmlBranch] at h
  repeat' split at h
  all_goals first
    | exact absurd h (by decide)
    | simp at h

theorem stage9_noMts (st : St) : noMts (stage9 st) := by
  intro h
  simp only [stage9] at h
  repeat' split at h
  all_goals first
    | exact absurd h (by decide)
    | simp at h

theorem relsOption_noMts (t : List Nat) (r : FileType)
    (h : (if (endsWithB t (stringToBytes ".rels") || endsWithB t (stringToBytes ".xml")) = true then
            if firstComponent t = stringToBytes "word" then
              some (⟨"docx",
                "application/vnd.openxmlformats-officedocument.wordprocessingml.document"⟩ : FileType)
            else if firstComponent t = stringToBytes "ppt" then
              some ⟨"pptx",
                "application/vnd.openxmlformats-officedocument.presentationml.presentation"⟩
            else if firstComponent t = stringToBytes "xl" then
              some ⟨"xlsx",
                "application/vnd.openxmlformats-officedocument.spreadsheetml.sheet"⟩
            else none
          else none) = some r) :
    r ≠ mtsFT := by
  repeat' split at h
  all_goals first
    | (simp only [Option.some.injEq] at h; subst h; decide)
    | simp at h

theorem zipLoop_noMts : ∀ (fuel : Nat) (st : St), noMts (zipLoop fuel st) := by
  intro fuel
  induction fuel with
  | zero => intro st; exact noMts_det (by decide)
  | succ k ih =>
    intro st h
    simp only [zipLoop] at h
    repeat' split at h
    any_goals first
      | exact absurd h (by decide)
      | exact ih _ h
      | simp at h
    subst h
    apply relsOption_noMts _ _ _ rfl <;> assumption

theorem zipBranch_noMts (st : St) : noMts (zipBranch st) := by
  intro h
  rw [zipBranch] at h
  split at h
  · exact absurd h (by decide)
  · exact zipLoop_noMts _ _ h

theorem pngWalk_noMts : ∀ (fuel : Nat) (st : St), noMts (pngWalk fuel st) := by
  intro fuel
  induction fuel with
  | zero => intro st; exact noMts_det (by decide)
  | succ k ih =>
    intro st h
    simp only [pngWalk] at h
    repeat' split at h
    all_goals first
      | exact absurd h (by decide)
      | simp at h
      | exact ih _ h

theorem pngBranch_noMts (st : St) : noMts (pngBranch st) := by
  intro h
  simp only [pngBranch] at h
  exact pngWalk_noMts _ _ h

theorem asfWalk_noMts : ∀ (fuel : Nat) (st : St), noMts (asfWalk fuel st) := by
  intro fuel
  induction fuel with
  | zero => intro st; exact noMts_det (by decide)
  | succ k ih =>
    intro st h
    simp only [asfWalk] at h
    repeat' split at h
    all_goals first
      | exact absurd h (by decide)
      | simp at h
      | exact ih _ h

theorem asfBranch_noMts (st : St) : noMts (asfBranch st) := by
  intro h
  simp only [asfBranch] at h
  exact asfWalk_noMts _ _ h

theorem readTiffTag_noMts (be : Bool) (st : St) : tagNoMts (readTiffTag be st) := by
  intro st2 h
  simp only [readTiffTag] at h
  repeat' split at h
  all_goals first
    | (simp only [Except.ok.injEq, Prod.mk.injEq, Option.some.injEq] at h;
       exact absurd h.1 (by decide))
    | simp at h

theorem readTiffIFD_noMts (be : Bool) :
    ∀ (n : Nat) (st : St), tagNoMts (readTiffIFD be n st) := by
  intro n
  induction n with
  | zero =>
    intro st st2 h
    simp [readTiffIFD] at h
  | succ k ih =>
    intro st
    simp only [readTiffIFD]
    cases hT : readTiffTag be st with
    | error e => intro st2 h; simp at h
    | ok p =>
      obtain ⟨o, st1⟩ := p
      cases o with
      | some ft1 =>
        intro st2 h
        simp only [Except.ok.injEq, Prod.mk.injEq, Option.some.injEq] at h
        obtain ⟨h1, h2⟩ := h
        subst h1
        exact readTiffTag_noMts be st st1 hT
      | none => exact ih st1

theorem optNoMts_ite {c : Prop} [Decidable c] {a b : Except JsErr (Option FileType)}
    (ha : optNoMts a) (hb : optNoMts b) : optNoMts (if c then a else b) := by
  rcases Classical.em c with hc | hc
  · rwa [if_pos hc]
  · rwa [if_neg hc]

theorem optNoMts_det {ft : FileType} (h : ft ≠ mtsFT) : optNoMts (.ok (some ft)) :=
  fun hh => h (Option.some.inj (Except.ok.inj hh))

theorem optNoMts_none : optNoMts (.ok none) :=
  fun hh => Option.noConfusion (Except.ok.inj hh)

theorem optNoMts_err (e : JsErr) : optNoMts (.error e) :=
  fun hh => Except.noConfusion hh

theorem readTiffHeader_noMts (be : Bool) (st : St) : optNoMts (readTiffHeader be st) := by
  unfold readTiffHeader
  cases be with
  | true =>
    refine optNoMts_ite ?_ (optNoMts_ite (optNoMts_det (by decide)) optNoMts_none)
    refine optNoMts_ite (optNoMts_det (by decide)) ?_
    refine optNoMts_ite (optNoMts_det (by decide)) ?_
    simp only [reduceIte]
    cases hE : readExact (ignoreN st (readUInt32BE st.buf 4)) 2 with
    | error e => exact optNoMts_err e
    | ok p =>
      obtain ⟨nb, st2⟩ := p
      simp only []
      cases hI : readTiffIFD true (readUInt16BE nb 0) st2 with
      | error e => exact optNoMts_err e
      | ok q =>
        obtain ⟨o, st3⟩ := q
        cases o with
        | some ft1 =>
          exact optNoMts_det (fun hft => readTiffIFD_noMts true _ st2 st3 (hft ▸ hI))
        | none => exact optNoMts_det (by decide)
  | false =>
    refine optNoMts_ite ?_ (optNoMts_ite (optNoMts_det (by decide)) optNoMts_none)
    refine optNoMts_ite (optNoMts_det (by decide)) ?_
    refine optNoMts_ite (optNoMts_det (by decide)) ?_
    simp only []
    cases hE : readExact (ignoreN st
        (if false = true then readUInt32BE st.buf 4 else readUInt32LE st.buf 4)) 2 with
    | error e => exact optNoMts_err e
    | ok p =>
      obtain ⟨nb, st2⟩ := p
      simp only []
      cases hI : readTiffIFD false
          (if false = true then readUInt16BE nb 0 else readUInt16LE nb 0) st2 with
      | error e => exact optNoMts_err e
      | ok q =>
        obtain ⟨o, st3⟩ := q
        cases o with
        | some ft1 =>
          exact optNoMts_det (fun hft => readTiffIFD_noMts false _ st2 st3 (hft ▸ hI))
        | none => exact optNoMts_det (by decide)

theorem mtsTo_ite {c : Prop} [Decidable c] {a b a' b' : PR}
    (ha : mtsTo a a') (hb : mtsTo b b') :
    mtsTo (if c then a else b) (if c then a' else b') := by
  rcases Classical.em c with hc | hc
  · simp only [if_pos hc]; exact ha
  · simp only [if_neg hc]; exact hb

theorem mtsTo_refl (r : PR) : mtsTo r r := id

theorem mtsTo_noMts {r s : PR} (h : noMts r) : mtsTo r s := fun hh => absurd hh h

theorem optNotNone_det {ft : FileType} : optNotNone (.ok (some ft)) :=
  fun hh => Option.noConfusion (Except.ok.inj hh)

theorem optNotNone_err (e : JsErr) : optNotNone (.error e) :=
  fun hh => Except.noConfusion hh

theorem optNotNone_ite {c : Prop} [Decidable c] {a b : Except JsErr (Option FileType)}
    (ha : optNotNone a) (hb : optNotNone b) : optNotNone (if c then a else b) := by
  rcases Classical.em c with hc | hc
  · rwa [if_pos hc]
  · rwa [if_neg hc]

theorem readTiffHeader_notNone (be : Bool) (st : St)
    (hv : (if be = true then readUInt16BE st.buf 2 else readUInt16LE st.buf 2) = 42 ∨
          (if be = true then readUInt16BE st.buf 2 else readUInt16LE st.buf 2) = 43) :
    optNotNone (readTiffHeader be st) := by
  unfold readTiffHeader
  cases be with
  | true =>
    simp only [reduceIte] at hv ⊢
    rcases hv with h42 | h43
    · rw [if_pos h42]
      refine optNotNone_ite optNotNone_det ?_
      refine optNotNone_ite optNotNone_det ?_
      cases hE : readExact (ignoreN st (readUInt32BE st.buf 4)) 2 with
      | error e => exact optNotNone_err e
      | ok p =>
        obtain ⟨nb, st2⟩ := p
        simp only []
        cases hI : readTiffIFD true (readUInt16BE nb 0) st2 with
        | error e => exact optNotNone_err e
        | ok q =>
          obtain ⟨o, st3⟩ := q
          cases o with
          | some ft1 => exact optNotNone_det
          | none => exact optNotNone_det
    · rw [if_neg (by omega), if_pos h43]
      exact optNotNone_det
  | false =>
    simp only [reduceIte] at hv ⊢
    rcases hv with h42 | h43
    · rw [if_pos h42]
      refine optNotNone_ite optNotNone_det ?_
      refine optNotNone_ite optNotNone_det ?_
      cases hE : readExact (ignoreN st
          (if false = true then readUInt32BE st.buf 4 else readUInt32LE st.buf 4)) 2 with
      | error e => exact optNotNone_err e
      | ok p =>
        obtain ⟨nb, st2⟩ := p
        simp only []
        cases hI : readTiffIFD false
            (if false = true then readUInt16BE nb 0 else readUInt16LE nb 0) st2 with
        | error e => exact optNotNone_err e
        | ok q =>
          obtain ⟨o, st3⟩ := q
          cases o with
          | some ft1 => exact optNotNone_det
          | none => exact optNotNone_det
    · rw [if_neg (by omega), if_pos h43]
      exact optNotNone_det

theorem readTiffHeader_none (be : Bool) (d d' B : List Nat)
    (h : readTiffHeader be ⟨d, 0, B⟩ = .ok none) :
    readTiffHeader be ⟨d', 0, B⟩ = .ok none := by
  have h42 : ¬ (if be = true then readUInt16BE B 2 else readUInt16LE B 2) = 42 := by
    intro hg
    exact readTiffHeader_notNone be ⟨d, 0, B⟩ (Or.inl hg) h
  have h43 : ¬ (if be = true then readUInt16BE B 2 else readUInt16LE B 2) = 43 := by
    intro hg
    exact readTiffHeader_notNone be ⟨d, 0, B⟩ (Or.inr hg) h
  simp only [readTiffHeader]
  rw [if_neg h42, if_neg h43]

theorem stage8a_mts (X Y C : List Nat) :
    mtsTo (stage8a ⟨X, 0, C⟩) (stage8a ⟨X ++ Y, 0, C⟩) := by
  simp only [stage8a, chk]
  rw [show asarCase ⟨X ++ Y, 0, C⟩ = asarCase ⟨X, 0, C⟩ from rfl]
  refine mtsTo_ite (mtsTo_refl _) ?_
  refine mtsTo_ite (mtsTo_refl _) ?_
  refine mtsTo_ite (mtsTo_refl _) ?_
  cases hA : asarCase ⟨X, 0, C⟩ with
  | some r => exact mtsTo_refl _
  | none =>
    refine mtsTo_ite (mtsTo_refl _) ?_
    refine mtsTo_ite (mtsTo_refl _) ?_
    refine mtsTo_ite (mtsTo_refl _) ?_
    refine mtsTo_ite (mtsTo_refl _) ?_
    refine mtsTo_ite (mtsTo_refl _) ?_
    refine mtsTo_ite (mtsTo_refl _) ?_
    refine mtsTo_ite (mtsTo_refl _) ?_
    refine mtsTo_ite (mtsTo_refl _) ?_
    refine mtsTo_ite (mtsTo_refl _) ?_
    refine mtsTo_ite (mtsTo_refl _) ?_
    exact mtsTo_noMts (stage9_noMts _)

theorem stage8_mts (X Y B : List Nat) (hlen : 256 ≤ X.length) :
    mtsTo (stage8 ⟨X, 0, B⟩) (stage8 ⟨X ++ Y, 0, B⟩) := by
  have hminX : min 256 (size (⟨X, 0, B⟩ : St)) = 256 := by
    simp only [size]
    omega
  have hminXY : min 256 (size (⟨X ++ Y, 0, B⟩ : St)) = 256 := by
    simp only [size, List.length_append]
    omega
  have hpX : peekBytes (⟨X, 0, B⟩ : St) 256 = X.take 256 := by
    simp only [peekBytes, rem, size, Nat.sub_zero, List.drop_zero]
    rw [show min X.length 256 = 256 from by omega]
  have hpXY : peekBytes (⟨X ++ Y, 0, B⟩ : St) 256 = X.take 256 := by
    simp only [peekBytes, rem, size, Nat.sub_zero, List.drop_zero, List.length_append]
    rw [show min (X.length + Y.length) 256 = 256 from by omega]
    exact List.take_append_of_le_length (by omega)
  simp only [stage8, setWindow]
  rw [hminX, hminXY, hpX, hpXY]
  simp only [chk]
  refine mtsTo_ite (mtsTo_ite (mtsTo_refl _)
    (mtsTo_ite (mtsTo_refl _) (stage8a_mts X Y _))) (stage8a_mts X Y _)

theorem stage7_mts (X Y B : List Nat) (hlen : 256 ≤ X.length) :
    mtsTo (stage7 ⟨X, 0, B⟩) (stage7 ⟨X ++ Y, 0, B⟩) := by
  simp only [stage7, chk]
  refine mtsTo_ite (mtsTo_refl _) ?_
  refine mtsTo_ite (mtsTo_refl _) ?_
  refine mtsTo_ite (mtsTo_refl _) ?_
  refine mtsTo_ite (mtsTo_refl _) ?_
  refine mtsTo_ite (mtsTo_refl _) ?_
  exact stage8_mts X Y B hlen

theorem stage6_mts (X Y B : List Nat) (hlen : 256 ≤ X.length) :
    mtsTo (stage6 ⟨X, 0, B⟩) (stage6 ⟨X ++ Y, 0, B⟩) := by
  simp only [stage6, chk]
  refine mtsTo_ite (mtsTo_refl _) ?_
  refine mtsTo_ite (mtsTo_refl _) ?_
  refine mtsTo_ite (mtsTo_refl _) ?_
  refine mtsTo_ite (mtsTo_noMts (asfBranch_noMts _)) ?_
  refine mtsTo_ite (mtsTo_refl _) ?_
  refine mtsTo_ite (mtsTo_refl _) ?_
  refine mtsTo_ite (mtsTo_refl _) ?_
  refine mtsTo_ite (mtsTo_noMts (jp2Branch_noMts _)) ?_
  refine mtsTo_ite (mtsTo_refl _) ?_
  refine mtsTo_ite (mtsTo_ite (mtsTo_refl _) (mtsTo_refl _)) ?_
  exact stage7_mts X Y B hlen

theorem stage5_mts (X Y B : List Nat) (hlen : 256 ≤ X.length) :
    mtsTo (stage5 ⟨X, 0, B⟩) (stage5 ⟨X ++ Y, 0, B⟩) := by
  simp only [stage5, chk]
  refine mtsTo_ite (mtsTo_refl _) ?_
  refine mtsTo_ite (mtsTo_refl _) ?_
  refine mtsTo_ite (mtsTo_refl _) ?_
  refine mtsTo_ite (mtsTo_refl _) ?_
  refine mtsTo_ite (mtsTo_refl _) ?_
  refine mtsTo_ite (mtsTo_refl _) ?_
  refine mtsTo_ite (mtsTo_noMts (arBranch_noMts _)) ?_
  refine mtsTo_ite (mtsTo_noMts (pngBranch_noMts _)) ?_
  refine mtsTo_ite (mtsTo_refl _) ?_
  refine mtsTo_ite (mtsTo_refl _) ?_
  refine mtsTo_ite (mtsTo_refl _) ?_
  exact stage6_mts X Y B hlen

theorem stage4a_mts (X Y B : List Nat) (hlen : 256 ≤ X.length) :
    mtsTo (stage4a ⟨X, 0, B⟩) (stage4a ⟨X ++ Y, 0, B⟩) := by
  simp only [stage4a, chk]
  refine mtsTo_ite (mtsTo_refl _) ?_
  exact stage5_mts X Y B hlen

theorem stage4_mts (X Y B : List Nat) (hlen : 256 ≤ X.length) :
    mtsTo (stage4 ⟨X, 0, B⟩) (stage4 ⟨X ++ Y, 0, B⟩) := by
  simp only [stage4, chk, chkm]
  refine mtsTo_ite (mtsTo_refl _) ?_
  refine mtsTo_ite (mtsTo_refl _) ?_
  refine mtsTo_ite (mtsTo_refl _) ?_
  refine mtsTo_ite (mtsTo_refl _) ?_
  refine mtsTo_ite (mtsTo_refl _) ?_
  refine mtsTo_ite (mtsTo_refl _) ?_
  refine mtsTo_ite (mtsTo_refl _) ?_
  refine mtsTo_ite (mtsTo_refl _) ?_
  refine mtsTo_ite (mtsTo_refl _) ?_
  refine mtsTo_ite (mtsTo_refl _) ?_
  refine mtsTo_ite (mtsTo_refl _) ?_
  refine mtsTo_ite (mtsTo_refl _) ?_
  refine mtsTo_ite (mtsTo_refl _) ?_
  refine mtsTo_ite (mtsTo_refl _) ?_
  refine mtsTo_ite (mtsTo_ite (mtsTo_refl _)
    (mtsTo_ite (mtsTo_refl _) (stage4a_mts X Y B hlen))) ?_
  exact stage4a_mts X Y B hlen

theorem stage3b_mts (X Y B : List Nat) (hlen : 256 ≤ X.length) :
    mtsTo (stage3b ⟨X, 0, B⟩) (stage3b ⟨X ++ Y, 0, B⟩) := by
  simp only [stage3b, chk]
  refine mtsTo_ite (mtsTo_refl _) ?_
  refine mtsTo_ite (mtsTo_noMts (ebmlBranch_noMts _)) ?_
  refine mtsTo_ite (mtsTo_ite (mtsTo_refl _) (mtsTo_ite (mtsTo_refl _)
    (mtsTo_ite (mtsTo_refl _) (stage4_mts X Y B hlen)))) ?_
  exact stage4_mts X Y B hlen

theorem stage3a_mts (X Y B : List Nat) (hlen : 256 ≤ X.length) :
    mtsTo (stage3a ⟨X, 0, B⟩) (stage3a ⟨X ++ Y, 0, B⟩) := by
  simp only [stage3a, chk]
  refine mtsTo_ite ?_ (stage3b_mts X Y B hlen)
  intro h
  cases hT : readTiffHeader true ⟨X, 0, B⟩ with
  | error e =>
    rw [hT] at h
    simp at h
  | ok o =>
    cases o with
    | some ft =>
      rw [hT] at h
      exact (readTiffHeader_noMts true _ (hT.trans h)).elim
    | none =>
      rw [hT] at h
      rw [readTiffHeader_none true X (X ++ Y) B hT]
      exact stage3b_mts X Y B hlen h

theorem stage3_mts (X Y B : List Nat) (hlen : 256 ≤ X.length) :
    mtsTo (stage3 ⟨X, 0, B⟩) (stage3 ⟨X ++ Y, 0, B⟩) := by
  simp only [stage3, chk]
  refine mtsTo_ite ?_ (stage3a_mts X Y B hlen)
  intro h
  cases hT : readTiffHeader false ⟨X, 0, B⟩ with
  | error e =>
    rw [hT] at h
    simp at h
  | ok o =>
    cases o with
    | some ft =>
      rw [hT] at h
      exact (readTiffHeader_noMts false _ (hT.trans h)).elim
    | none =>
      rw [hT] at h
      rw [readTiffHeader_none false X (X ++ Y) B hT]
      exact stage3a_mts X Y B hlen h

theorem stage2_mts (X Y B : List Nat) (hlen : 256 ≤ X.length) :
    mtsTo (stage2 ⟨X, 0, B⟩) (stage2 ⟨X ++ Y, 0, B⟩) := by
  simp only [stage2, chk]
  refine mtsTo_ite (mtsTo_noMts (zipBranch_noMts _)) ?_
  refine mtsTo_ite (mtsTo_noMts (oggProbe_noMts _)) ?_
  refine mtsTo_ite (mtsTo_refl _) ?_
  refine mtsTo_ite (mtsTo_refl _) ?_
  refine mtsTo_ite (mtsTo_refl _) ?_
  refine mtsTo_ite (mtsTo_refl _) ?_
  refine mtsTo_ite (mtsTo_refl _) ?_
  refine mtsTo_ite (mtsTo_refl _) ?_
  refine mtsTo_ite (mtsTo_refl _) ?_
  refine mtsTo_ite (mtsTo_refl _) ?_
  refine mtsTo_ite (mtsTo_refl _) ?_
  refine mtsTo_ite (mtsTo_refl _) ?_
  refine mtsTo_ite (mtsTo_refl _) ?_
  refine mtsTo_ite (mtsTo_noMts (pdfBranch_noMts _)) ?_
  refine mtsTo_ite (mtsTo_refl _) ?_
  exact stage3_mts X Y B hlen

theorem stage1_mts (X Y B : List Nat) (hlen : 256 ≤ X.length) :
    mtsTo (stage1 ⟨X, 0, B⟩) (stage1 ⟨X ++ Y, 0, B⟩) := by
  simp only [stage1, chk]
  refine mtsTo_ite (mtsTo_refl _) ?_
  refine mtsTo_ite (mtsTo_refl _) ?_
  refine mtsTo_ite (mtsTo_refl _) ?_
  refine mtsTo_ite (mtsTo_refl _) ?_
  refine mtsTo_ite (mtsTo_refl _) ?_
  refine mtsTo_ite (mtsTo_refl _) ?_
  refine mtsTo_ite (mtsTo_refl _) ?_
  refine mtsTo_ite (mtsTo_refl _) ?_
  exact stage2_mts X Y B hlen

theorem _check_take_of_true {B hdr : List Nat} (h : _check B hdr 0 none = true) :
    B.take hdr.length = hdr := by
  have hc := (_checkAux_none_iff B 0 hdr 0).mp h
  apply List.ext_getElem?
  intro i
  by_cases hi : i < hdr.length
  · obtain ⟨b, hb, he⟩ := hc i hi
    rw [List.getElem?_take, if_pos hi]
    have hBi : B[i]? = some b := by
      rw [← byteAt_eq_getElem?]
      simpa using hb
    rw [hBi]
    cases hh : hdr[i]? with
    | none =>
      rw [List.getElem?_eq_none_iff] at hh
      omega
    | some v =>
      have hv : byteAtD hdr i 0 = v := by
        unfold byteAtD
        rw [byteAt_eq_getElem?, hh]
      rw [show v = b from hv ▸ he]
  · rw [List.getElem?_take, if_neg hi, List.getElem?_eq_none (by omega)]

theorem ite_cond_false {α : Sort _} {inst : Decidable (false = true)} (a b : α) :
    @ite α (false = true) inst a b = b := by
  cases inst with
  | isTrue h => exact absurd h (by decide)
  | isFalse h => rfl

theorem parseBody_mts (X Y : List Nat) (r r' : St → PR) (hlen : 256 ≤ X.length)
    (hbom : X.take 3 ≠ [0xEF, 0xBB, 0xBF]) (hid3 : X.take 3 ≠ [0x49, 0x44, 0x33]) :
    mtsTo (parseBody r ⟨X, 0, []⟩) (parseBody r' ⟨X ++ Y, 0, []⟩) := by
  have hpX : peekBytes (⟨X, 0, []⟩ : St) 12 = X.take 12 := by
    simp only [peekBytes, rem, size, Nat.sub_zero, List.drop_zero]
    rw [show min X.length 12 = 12 from by omega]
  have hpXY : peekBytes (⟨X ++ Y, 0, []⟩ : St) 12 = X.take 12 := by
    simp only [peekBytes, rem, size, Nat.sub_zero, List.drop_zero, List.length_append]
    rw [show min (X.length + Y.length) 12 = 12 from by omega]
    exact List.take_append_of_le_length (by omega)
  simp only [parseBody, chk]
  rw [hpX, hpXY]
  have hB12 : (writeBytes (List.replicate minimumBytes 0) (X.take 12)).take 3 = X.take 3 := by
    rw [writeBytes, List.take_append_of_le_length (by rw [List.length_take]; omega),
      List.take_take, show (3 : Nat) ⊓ 12 = 3 from by omega]
  have hbomF : _check (writeBytes (List.replicate minimumBytes 0) (X.take 12))
      [0xEF, 0xBB, 0xBF] 0 none = false := by
    cases hB : _check (writeBytes (List.replicate minimumBytes 0) (X.take 12))
        [0xEF, 0xBB, 0xBF] 0 none with
    | false => rfl
    | true =>
      exfalso
      apply hbom
      have ht := _check_take_of_true hB
      rw [← hB12]
      simpa using ht
  have hid3F : _check (writeBytes (List.replicate minimumBytes 0) (X.take 12))
      (stringToBytes "ID3") 0 none = false := by
    cases hB : _check (writeBytes (List.replicate minimumBytes 0) (X.take 12))
        (stringToBytes "ID3") 0 none with
    | false => rfl
    | true =>
      exfalso
      apply hid3
      have ht := _check_take_of_true hB
      rw [← hB12]
      simpa using ht
  simp only [hbomF, hid3F, ite_cond_false]
  refine mtsTo_ite (mtsTo_refl _) ?_
  refine mtsTo_ite (mtsTo_refl _) ?_
  refine mtsTo_ite (mtsTo_refl _) ?_
  refine mtsTo_ite (mtsTo_refl _) ?_
  refine mtsTo_ite (mtsTo_noMts (epsBranch_noMts _)) ?_
  refine mtsTo_ite (mtsTo_refl _) ?_
  refine mtsTo_ite (mtsTo_refl _) ?_
  refine mtsTo_ite (mtsTo_refl _) ?_
  refine mtsTo_ite (mtsTo_refl _) ?_
  refine mtsTo_ite (mtsTo_refl _) ?_
  refine mtsTo_ite (mtsTo_refl _) ?_
  exact stage1_mts X Y _ hlen

/-- Amended C4: for inputs of at least 256 bytes (the escalated sample the
MPEG-TS probes read from) that do not begin with a UTF-8 BOM or an ID3 header,
an MPEG-TS detection is stable under appending arbitrary bytes: every guard on
the way to the two MPEG-TS probes reads only the first 256 bytes, and no
container walk or later probe can produce the mts result. -/
theorem c4_amended (X Y : List Nat) (hlen : 256 ≤ X.length)
    (hbom : X.take 3 ≠ [0xEF, 0xBB, 0xBF]) (hid3 : X.take 3 ≠ [0x49, 0x44, 0x33])
    (h : fileTypeFromTokenizer (fromBuffer X) = .ok (some ⟨"mts", "video/mp2t"⟩)) :
    fileTypeFromTokenizer (fromBuffer (X ++ Y)) = .ok (some ⟨"mts", "video/mp2t"⟩) := by
  have hX : parseBody (parseF (rem (⟨X, 0, []⟩ : St))) ⟨X, 0, []⟩ = .ok (some mtsFT) := h
  exact parseBody_mts X Y (parseF (rem (⟨X, 0, []⟩ : St)))
    (parseF (rem (⟨X ++ Y, 0, []⟩ : St))) hlen hbom hid3 hX

/-- Witness for the amended C4: a 256-byte MPEG-TS input keeps its detection
after a byte is appended. -/
theorem c4_amended_witness :
    fileTypeFromTokenizer (fromBuffer
        ((0x47 :: List.replicate 187 0 ++ 0x47 :: List.replicate 67 0) ++ [0x00])) =
      .ok (some ⟨"mts", "video/mp2t"⟩) :=
  c4_amended (0x47 :: List.replicate 187 0 ++ 0x47 :: List.replicate 67 0) [0x00]
    (by decide) (by decide) (by decide) rfl

end FType
